import Mathlib

/-!
Verification of the light-client subsystem of the go-eth2-client repository.

The textual wire format is modelled as a tree of JSON values (`JVal`): the
byte-level JSON syntax (whitespace, escaping) is handled by Go's standard
`encoding/json` package below this abstraction, while field order inside an
object, duplicate keys and value types are all visible in the tree.  Byte
strings are `List Nat` (each element a byte value < 256).  Fallible Go
functions returning `error` are modelled with `Except String`, carrying the
exact error message the Go code builds.
-/

namespace GoEth2

/-- A JSON value after parsing: the wire representation used by the textual
codec.  Object fields keep their order and may repeat, as in the byte form. -/
inductive JVal : Type where
  | null : JVal
  | bool : Bool → JVal
  | num : Int → JVal
  | str : String → JVal
  | arr : List JVal → JVal
  | obj : List (String × JVal) → JVal
deriving Repr

/-- The JSON type name used in Go `encoding/json` error messages. -/
def JVal.typeName : JVal → String
  | .null => "null"
  | .bool _ => "bool"
  | .num _ => "number"
  | .str _ => "string"
  | .arr _ => "array"
  | .obj _ => "object"

/-- Go `encoding/json` assigns object members to struct fields in order of
appearance, so the value that sticks is the last occurrence of a key. -/
def lastVal (k : String) (kvs : List (String × JVal)) : Option JVal :=
  kvs.foldl (fun a p => if p.1 = k then some p.2 else a) none

/-- A single quote character, used inside Go error messages. -/
def sq : String := String.singleton (Char.ofNat 39)

/-- Go `strconv` quoting of a string for an error message (printable ASCII
inputs render unescaped between double quotes). -/
def goQuote (s : String) : String := "\"" ++ s ++ "\""

/-- Lowercase hexadecimal digit, as produced by Go `fmt` verb `%x`. -/
def lowHexChar (n : Nat) : Char :=
  match n with
  | 0 => '0' | 1 => '1' | 2 => '2' | 3 => '3' | 4 => '4'
  | 5 => '5' | 6 => '6' | 7 => '7' | 8 => '8' | 9 => '9'
  | 10 => 'a' | 11 => 'b' | 12 => 'c' | 13 => 'd' | 14 => 'e'
  | _ => 'f'

/-- Uppercase hexadecimal digit, used by the `%U` verb. -/
def upHexChar (n : Nat) : Char :=
  match n with
  | 0 => '0' | 1 => '1' | 2 => '2' | 3 => '3' | 4 => '4'
  | 5 => '5' | 6 => '6' | 7 => '7' | 8 => '8' | 9 => '9'
  | 10 => 'A' | 11 => 'B' | 12 => 'C' | 13 => 'D' | 14 => 'E'
  | _ => 'F'

def toUpHex (n : Nat) : List Char :=
  if h : n < 16 then [upHexChar n]
  else toUpHex (n / 16) ++ [upHexChar (n % 16)]
decreasing_by exact Nat.div_lt_self (by omega) (by omega)

/-- Go `%#U` rendering of a rune, e.g. `U+0069 'i'` (printable inputs). -/
def goRuneU (c : Char) : String :=
  let ds := toUpHex c.toNat
  "U+" ++ String.mk (List.replicate (4 - ds.length) '0' ++ ds) ++ " " ++
    sq ++ String.singleton c ++ sq

/-- Message of Go `encoding/hex` `InvalidByteError`. -/
def hexInvalidByteMsg (c : Char) : String :=
  "encoding/hex: invalid byte: " ++ goRuneU c

/-- Message of Go `encoding/hex` `ErrLength`. -/
def hexOddLengthMsg : String := "encoding/hex: odd length hex string"

/-- Value of a hexadecimal digit character, in either case, as accepted by Go
`encoding/hex`. -/
def fromHexChar (c : Char) : Option Nat :=
  if 48 ≤ c.toNat ∧ c.toNat ≤ 57 then some (c.toNat - 48)
  else if 97 ≤ c.toNat ∧ c.toNat ≤ 102 then some (c.toNat - 97 + 10)
  else if 65 ≤ c.toNat ∧ c.toNat ≤ 70 then some (c.toNat - 65 + 10)
  else none

/-- Go `hex.Decode`: consumes digit pairs left to right, reporting the first
invalid byte; a trailing odd digit yields the odd-length error.  Following
Go's `DecodeString`, the bytes decoded before a failure are also returned. -/
def goHexDecodeCore : List Char → List Nat × Option String
  | [] => ([], none)
  | [c] =>
    match fromHexChar c with
    | none => ([], some (hexInvalidByteMsg c))
    | some _ => ([], some hexOddLengthMsg)
  | a :: b :: rest =>
    match fromHexChar a with
    | none => ([], some (hexInvalidByteMsg a))
    | some x =>
      match fromHexChar b with
      | none => ([], some (hexInvalidByteMsg b))
      | some y =>
        let r := goHexDecodeCore rest
        ((16 * x + y) :: r.1, r.2)

/-- Go `hex.DecodeString` restricted to its success/error view. -/
def goHexDecodeString (s : String) : Except String (List Nat) :=
  match goHexDecodeCore s.data with
  | (bs, none) => .ok bs
  | (_, some e) => .error e

/-- Go `strings.TrimPrefix(s, "0x")`. -/
def trim0x (s : String) : String :=
  match s.data with
  | '0' :: 'x' :: rest => String.mk rest
  | _ => s

/-- Hex pair of one byte, lowercase, as in Go `%x` of a byte. -/
def hexPair (b : Nat) : List Char := [lowHexChar (b % 256 / 16), lowHexChar (b % 16)]

/-- Go `fmt.Sprintf("%#x", bs)` on a byte slice: `0x` followed by two
lowercase digits per byte (an empty slice renders as `0x`). -/
def hexEncodeBytes (bs : List Nat) : String :=
  String.mk ('0' :: 'x' :: (bs.map hexPair).flatten)

def isDecDigit (c : Char) : Bool := 48 ≤ c.toNat && c.toNat ≤ 57

def decDigitsVal (l : List Char) : Nat :=
  l.foldl (fun a c => 10 * a + (c.toNat - 48)) 0

/-- Go `strconv.ParseUint(s, 10, 64)`: only decimal digits are accepted (no
sign, no prefix); the empty string and any non-digit character give a syntax
error, a value needing more than 64 bits gives a range error. -/
def goParseUint (s : String) : Except String Nat :=
  if s.data.isEmpty ∨ ¬ s.data.all isDecDigit then
    .error ("strconv.ParseUint: parsing " ++ goQuote s ++ ": invalid syntax")
  else if decDigitsVal s.data < 2 ^ 64 then .ok (decDigitsVal s.data)
  else .error ("strconv.ParseUint: parsing " ++ goQuote s ++ ": value out of range")

def decDigitChar (n : Nat) : Char :=
  match n with
  | 0 => '0' | 1 => '1' | 2 => '2' | 3 => '3' | 4 => '4'
  | 5 => '5' | 6 => '6' | 7 => '7' | 8 => '8' | _ => '9'

/-- Decimal digit list of a natural number, most significant first. -/
def decChars (n : Nat) : List Char :=
  if h : n < 10 then [decDigitChar n]
  else decChars (n / 10) ++ [decDigitChar (n % 10)]
decreasing_by exact Nat.div_lt_self (by omega) (by omega)

/-- Go `fmt.Sprintf("%d", n)` for an unsigned integer. -/
def goUintString (n : Nat) : String := String.mk (decChars n)

/-! ## Opaque collaborator entities

Modelled from the spec: §3 declares that header fields "reference an
externally-defined block-header entity and are treated as opaque
substructures (owned by the caller's spec library, never constructed here)",
and the glossary treats the sync committee the same way.  Their JSON object
form is carried verbatim. -/

/-- Modelled from the spec: `phase0.BeaconBlockHeader`, opaque; carries its
parsed JSON object unchanged. -/
structure BeaconBlockHeader where
  val : JVal
deriving Repr

/-- Modelled from the spec: `altair.SyncCommittee`, opaque. -/
structure SyncCommittee where
  val : JVal
deriving Repr

/-- Modelled from the spec: `altair.SyncAggregate`, opaque. -/
structure SyncAggregate where
  val : JVal
deriving Repr

/-- Modelled from the spec: `capella.ExecutionPayloadHeader` (and the deneb
variant), opaque execution-payload header. -/
structure ExecutionPayloadHeader where
  val : JVal
deriving Repr

/-! ## Stage one: `encoding/json` unmarshalling into the wire struct

Go's `json.Unmarshal(input, &jso)` fills the `*JSON` helper struct before any
repository validation runs.  Its observable behaviour on an object: members
are matched to struct fields by key (last occurrence wins), `null` clears a
pointer or slice field and is ignored for a string field, a type mismatch on
a plain field is recorded and reported after the scan unless a nested
custom unmarshaller fails first, which aborts immediately.  We model the
returned error as: first abort-class error in member order, else first
plain-class error in member order. -/

/-- `json: cannot unmarshal <t> into Go value of type <ty>` -/
def cannotUnmarshalValue (t ty : String) : String :=
  "json: cannot unmarshal " ++ t ++ " into Go value of type " ++ ty

/-- `json: cannot unmarshal <t> into Go struct field <jsoTy>.<field> of type <ty>` -/
def cannotUnmarshalField (t jsoTy field ty : String) : String :=
  "json: cannot unmarshal " ++ t ++ " into Go struct field " ++ jsoTy ++ "." ++
    field ++ " of type " ++ ty

/-- Abort-class error for an opaque substructure field: the external type's
own `UnmarshalJSON` runs on the member bytes (modelled from the spec: it
accepts an object, is skipped on `null`, and wraps a type mismatch as
`invalid JSON: ...` in the style shared by every codec in the repository). -/
def opaqueFieldErr (tyName : String) : JVal → Option String
  | .null => none
  | .obj _ => none
  | v => some ("invalid JSON: " ++ cannotUnmarshalValue v.typeName tyName)

/-- Plain-class element error inside a `[]string` field. -/
def strArrElemsErr (jsoTy field : String) : List JVal → Option String
  | [] => none
  | .str _ :: rest => strArrElemsErr jsoTy field rest
  | .null :: rest => strArrElemsErr jsoTy field rest
  | v :: _ => some (cannotUnmarshalField v.typeName jsoTy field "string")

/-- Plain-class error for a `[]string` field. -/
def strArrFieldErr (jsoTy field : String) : JVal → Option String
  | .null => none
  | .arr xs => strArrElemsErr jsoTy field xs
  | v => some (cannotUnmarshalField v.typeName jsoTy field "[]string")

/-- Plain-class error for a `string` field. -/
def strFieldErr (jsoTy field : String) : JVal → Option String
  | .null => none
  | .str _ => none
  | v => some (cannotUnmarshalField v.typeName jsoTy field "string")

/-- Scan the object members in order, collecting the first abort-class and
the first plain-class error, given a per-record field classifier. -/
def scanFields (f : String → JVal → Option String × Option String) :
    List (String × JVal) → Option String × Option String
  | [] => (none, none)
  | (k, v) :: rest =>
    let e := f k v
    let r := scanFields f rest
    (e.1 <|> r.1, e.2 <|> r.2)

/-- The error `json.Unmarshal` reports for an object body, if any. -/
def stage1Err (f : String → JVal → Option String × Option String)
    (kvs : List (String × JVal)) : Option String :=
  (scanFields f kvs).1 <|> (scanFields f kvs).2

/-- Final value of an opaque substructure pointer field. -/
def extractOpaque (v : Option JVal) : Option JVal :=
  match v with
  | some (.obj kvs) => some (.obj kvs)
  | _ => none

/-- Final value of a `[]string` field (`null` and absent both leave the nil
slice; a `null` element leaves that element's zero string). -/
def extractStrArr (v : Option JVal) : Option (List String) :=
  match v with
  | some (.arr xs) => some (xs.map fun e => match e with | .str s => s | _ => "")
  | _ => none

/-- Final value of a `string` field: last non-`null` occurrence of the key
(`null` never overwrites a Go string). -/
def extractStr (k : String) (kvs : List (String × JVal)) : String :=
  kvs.foldl
    (fun a p =>
      if p.1 = k then (match p.2 with | .str s => s | _ => a) else a) ""

/-! ## Branch-decoding loops shared by the validating codecs -/

/-- The element loop used by codecs whose branch is `[][]byte` with an
empty-string guard (e.g. `v1.LightClientUpdate`, `capella.LightClientBootstrap`):
the slice is pre-allocated with `make` and element `i` is assigned the
`hex.DecodeString` result (partial bytes on error) before the error and the
32-byte length are checked. -/
def branchLoopGuard (field : String) :
    List String → Nat → List (List Nat) → List (List Nat) × Option String
  | [], _, acc => (acc, none)
  | s :: rest, i, acc =>
    if s = "" then (acc, some (field ++ "[" ++ toString i ++ "] missing"))
    else
      let r := goHexDecodeCore (trim0x s).data
      let acc2 := acc.set i r.1
      match r.2 with
      | some e =>
        (acc2, some ("invalid value for " ++ field ++ "[" ++ toString i ++ "]: " ++ e))
      | none =>
        if r.1.length ≠ 32 then
          (acc2, some ("invalid length of " ++ field ++ "[" ++ toString i ++ "]"))
        else branchLoopGuard field rest (i + 1) acc2

/-- The element loop used by codecs whose branch is `[][32]byte` without an
empty-string guard (e.g. `v1.LightClientBootstrap`,
`v1.LightClientFinalityUpdate`): the hex result stays in a local until the
checks pass, then is copied over the zeroed 32-byte element. -/
def branchLoop32 (field : String) :
    List String → Nat → List (List Nat) → List (List Nat) × Option String
  | [], _, acc => (acc, none)
  | s :: rest, i, acc =>
    let r := goHexDecodeCore (trim0x s).data
    match r.2 with
    | some e =>
      (acc, some ("invalid value for " ++ field ++ "[" ++ toString i ++ "]: " ++ e))
    | none =>
      if r.1.length ≠ 32 then
        (acc, some ("invalid length of " ++ field ++ "[" ++ toString i ++ "]"))
      else branchLoop32 field rest (i + 1) (acc.set i r.1)

/-- Canonical form of one hex element, per the spec's words: `0x`-prefixed
lowercase hex of the decoded bytes; inputs that do not decode are left
unchanged. -/
def canonHexStr (s : String) : String :=
  match goHexDecodeString (trim0x s) with
  | .ok bs => hexEncodeBytes bs
  | .error _ => s

/-- Canonical form of a decimal slot string, per the spec's words. -/
def canonSlotStr (s : String) : String :=
  match goParseUint s with
  | .ok n => goUintString n
  | .error _ => s

/-- Render an optional opaque value as its JSON member (nil renders `null`). -/
def optJ (v : Option JVal) : JVal := v.getD .null

/-- Abort-class error for a pointer field whose type has its own
`UnmarshalJSON` in this repository: `null` skips the unmarshaller, any other
value is handed to it and its error aborts the outer decode. -/
def subFieldErr {α : Type} (dec : JVal → Except String α) : JVal → Option String
  | .null => none
  | v => match dec v with | .ok _ => none | .error e => some e

/-- Final value of a pointer field decoded by a nested `UnmarshalJSON`. -/
def extractSub {α : Type} (dec : JVal → Except String α) (v : Option JVal) : Option α :=
  match v with
  | some .null => none
  | some w => (dec w).toOption
  | none => none

namespace v1

/-- `api/v1.LightClientUpdate` (src/api/v1/lightclientupdate.go). -/
structure LightClientUpdate where
  attestedHeader : Option BeaconBlockHeader
  nextSyncCommittee : Option SyncCommittee
  nextSyncCommitteeBranch : List (List Nat)
  finalizedHeader : Option BeaconBlockHeader
  finalityBranch : List (List Nat)
  syncAggregate : Option SyncAggregate
  signatureSlot : Nat
deriving Repr

/-- The zero value a fresh `json.Unmarshal` receiver starts from. -/
def LightClientUpdate.zero : LightClientUpdate :=
  ⟨none, none, [], none, [], none, 0⟩

/-- `v1.lightClientUpdateJSON`, the spec representation struct. -/
structure lightClientUpdateJSON where
  attestedHeader : Option BeaconBlockHeader
  nextSyncCommittee : Option SyncCommittee
  nextSyncCommitteeBranch : Option (List String)
  finalizedHeader : Option BeaconBlockHeader
  finalityBranch : Option (List String)
  syncAggregate : Option SyncAggregate
  signatureSlot : String
deriving Repr

/-- Stage-one field classifier for `v1.lightClientUpdateJSON`. -/
def lightClientUpdateJSONFieldErrs (k : String) (v : JVal) :
    Option String × Option String :=
  if k = "attested_header" then (opaqueFieldErr "phase0.beaconBlockHeaderJSON" v, none)
  else if k = "next_sync_committee" then (opaqueFieldErr "altair.syncCommitteeJSON" v, none)
  else if k = "next_sync_committee_branch" then
    (none, strArrFieldErr "lightClientUpdateJSON" "next_sync_committee_branch" v)
  else if k = "finalized_header" then (opaqueFieldErr "phase0.beaconBlockHeaderJSON" v, none)
  else if k = "finality_branch" then
    (none, strArrFieldErr "lightClientUpdateJSON" "finality_branch" v)
  else if k = "sync_aggregate" then (opaqueFieldErr "altair.syncAggregateJSON" v, none)
  else if k = "signature_slot" then
    (none, strFieldErr "lightClientUpdateJSON" "signature_slot" v)
  else (none, none)

/-- `json.Unmarshal(input, &jso)` for `v1.lightClientUpdateJSON`. -/
def stage1LightClientUpdate (j : JVal) : Except String lightClientUpdateJSON :=
  match j with
  | .null => .ok ⟨none, none, none, none, none, none, ""⟩
  | .obj kvs =>
    match stage1Err lightClientUpdateJSONFieldErrs kvs with
    | some e => .error e
    | none =>
      .ok { attestedHeader := (extractOpaque (lastVal "attested_header" kvs)).map BeaconBlockHeader.mk
            nextSyncCommittee := (extractOpaque (lastVal "next_sync_committee" kvs)).map SyncCommittee.mk
            nextSyncCommitteeBranch := extractStrArr (lastVal "next_sync_committee_branch" kvs)
            finalizedHeader := (extractOpaque (lastVal "finalized_header" kvs)).map BeaconBlockHeader.mk
            finalityBranch := extractStrArr (lastVal "finality_branch" kvs)
            syncAggregate := (extractOpaque (lastVal "sync_aggregate" kvs)).map SyncAggregate.mk
            signatureSlot := extractStr "signature_slot" kvs }
  | v => .error (cannotUnmarshalValue v.typeName "v1.lightClientUpdateJSON")

/-- The validating body of `LightClientUpdate.UnmarshalJSON` (lines 82-150):
field checks run in declaration order, assigning each field of the receiver
as it validates, with no rollback on a later failure. -/
def LightClientUpdate.unmarshalBody (l0 : LightClientUpdate)
    (jso : lightClientUpdateJSON) : LightClientUpdate × Option String :=
  match jso.attestedHeader with
  | none => (l0, some "attested_header missing")
  | some ah =>
  let l1 := { l0 with attestedHeader := some ah }
  match jso.nextSyncCommittee with
  | none => (l1, some "next_sync_committee missing")
  | some sc =>
  let l2 := { l1 with nextSyncCommittee := some sc }
  match jso.nextSyncCommitteeBranch with
  | none => (l2, some "next_sync_committee_branch missing")
  | some nb =>
  if nb.length = 0 then (l2, some "next_sync_committee_branch length cannot be 0")
  else
  let r3 := branchLoopGuard "next_sync_committee_branch" nb 0 (List.replicate nb.length [])
  let l3 := { l2 with nextSyncCommitteeBranch := r3.1 }
  match r3.2 with
  | some e => (l3, some e)
  | none =>
  match jso.finalizedHeader with
  | none => (l3, some "finalized_header missing")
  | some fh =>
  let l4 := { l3 with finalizedHeader := some fh }
  match jso.finalityBranch with
  | none => (l4, some "finality_branch missing")
  | some fb =>
  if fb.length = 0 then (l4, some "finality_branch length cannot be 0")
  else
  let r5 := branchLoopGuard "finality_branch" fb 0 (List.replicate fb.length [])
  let l5 := { l4 with finalityBranch := r5.1 }
  match r5.2 with
  | some e => (l5, some e)
  | none =>
  match jso.syncAggregate with
  | none => (l5, some "sync_aggregate missing")
  | some sa =>
  let l6 := { l5 with syncAggregate := some sa }
  if jso.signatureSlot = "" then (l6, some "signature_slot missing")
  else
  match goParseUint jso.signatureSlot with
  | .error e => (l6, some ("invalid value for slot: " ++ e))
  | .ok slot => ({ l6 with signatureSlot := slot }, none)

/-- `LightClientUpdate.UnmarshalJSON`: stage one, then the validating body;
the receiver keeps whatever was assigned before a failure. -/
def LightClientUpdate.UnmarshalJSON (l : LightClientUpdate) (input : JVal) :
    LightClientUpdate × Option String :=
  match stage1LightClientUpdate input with
  | .error e => (l, some ("invalid JSON: " ++ e))
  | .ok jso => LightClientUpdate.unmarshalBody l jso

/-- Decoding into a fresh receiver, as `json.Unmarshal(input, &res)` does. -/
def decodeLightClientUpdate (input : JVal) : Except String LightClientUpdate :=
  match LightClientUpdate.UnmarshalJSON LightClientUpdate.zero input with
  | (l, none) => .ok l
  | (_, some e) => .error e

/-- `LightClientUpdate.MarshalJSON` (lines 52-71): branch elements render as
`%#x`, the slot as `%d`, members in struct declaration order. -/
def LightClientUpdate.MarshalJSON (l : LightClientUpdate) : JVal :=
  .obj [("attested_header", optJ (l.attestedHeader.map (·.val))),
        ("next_sync_committee", optJ (l.nextSyncCommittee.map (·.val))),
        ("next_sync_committee_branch",
          .arr (l.nextSyncCommitteeBranch.map fun b => .str (hexEncodeBytes b))),
        ("finalized_header", optJ (l.finalizedHeader.map (·.val))),
        ("finality_branch",
          .arr (l.finalityBranch.map fun b => .str (hexEncodeBytes b))),
        ("sync_aggregate", optJ (l.syncAggregate.map (·.val))),
        ("signature_slot", .str (goUintString l.signatureSlot))]

/-- Canonical rendering of an update wire object, written from the spec's
words: the fixed field order, each branch element as `0x`-prefixed lowercase
hex, the slot as a plain decimal string, nothing else.  Inputs that do not
decode are left as they are. -/
def canonLightClientUpdate (j : JVal) : JVal :=
  match stage1LightClientUpdate j with
  | .error _ => j
  | .ok jso =>
    .obj [("attested_header", optJ (jso.attestedHeader.map (·.val))),
          ("next_sync_committee", optJ (jso.nextSyncCommittee.map (·.val))),
          ("next_sync_committee_branch",
            match jso.nextSyncCommitteeBranch with
            | some ss => .arr (ss.map fun s => .str (canonHexStr s))
            | none => .null),
          ("finalized_header", optJ (jso.finalizedHeader.map (·.val))),
          ("finality_branch",
            match jso.finalityBranch with
            | some ss => .arr (ss.map fun s => .str (canonHexStr s))
            | none => .null),
          ("sync_aggregate", optJ (jso.syncAggregate.map (·.val))),
          ("signature_slot", .str (canonSlotStr jso.signatureSlot))]

/-- `api/v1.LightClientBootstrap` (src/unnamed/part_000).  The branch is
`[][32]byte`: elements are fixed 32-byte values, zeroed on allocation. -/
structure LightClientBootstrap where
  header : Option BeaconBlockHeader
  currentSyncCommittee : Option SyncCommittee
  currentSyncCommitteeBranch : List (List Nat)
deriving Repr

def LightClientBootstrap.zero : LightClientBootstrap := ⟨none, none, []⟩

/-- `v1.lightClientBootstrapJSON`. -/
structure lightClientBootstrapJSON where
  header : Option BeaconBlockHeader
  currentSyncCommittee : Option SyncCommittee
  currentSyncCommitteeBranch : Option (List String)
deriving Repr

def lightClientBootstrapJSONFieldErrs (k : String) (v : JVal) :
    Option String × Option String :=
  if k = "header" then (opaqueFieldErr "phase0.beaconBlockHeaderJSON" v, none)
  else if k = "current_sync_committee" then
    (opaqueFieldErr "altair.syncCommitteeJSON" v, none)
  else if k = "current_sync_committee_branch" then
    (none, strArrFieldErr "lightClientBootstrapJSON" "current_sync_committee_branch" v)
  else (none, none)

def stage1LightClientBootstrap (j : JVal) : Except String lightClientBootstrapJSON :=
  match j with
  | .null => .ok ⟨none, none, none⟩
  | .obj kvs =>
    match stage1Err lightClientBootstrapJSONFieldErrs kvs with
    | some e => .error e
    | none =>
      .ok { header := (extractOpaque (lastVal "header" kvs)).map BeaconBlockHeader.mk
            currentSyncCommittee :=
              (extractOpaque (lastVal "current_sync_committee" kvs)).map SyncCommittee.mk
            currentSyncCommitteeBranch :=
              extractStrArr (lastVal "current_sync_committee_branch" kvs) }
  | v => .error (cannotUnmarshalValue v.typeName "v1.lightClientBootstrapJSON")

/-- Validating body of `v1.LightClientBootstrap.UnmarshalJSON` (part_000
lines 57-94): no empty-string guard, 32-byte elements copied after checks. -/
def LightClientBootstrap.unmarshalBody (l0 : LightClientBootstrap)
    (jso : lightClientBootstrapJSON) : LightClientBootstrap × Option String :=
  match jso.header with
  | none => (l0, some "header missing")
  | some h =>
  let l1 := { l0 with header := some h }
  match jso.currentSyncCommittee with
  | none => (l1, some "current_sync_committee missing")
  | some sc =>
  let l2 := { l1 with currentSyncCommittee := some sc }
  match jso.currentSyncCommitteeBranch with
  | none => (l2, some "current_sync_committee_branch missing")
  | some br =>
  if br.length = 0 then (l2, some "current_sync_committee_branch length cannot be 0")
  else
  let r3 := branchLoop32 "current_sync_committee_branch" br 0
    (List.replicate br.length (List.replicate 32 0))
  ({ l2 with currentSyncCommitteeBranch := r3.1 }, r3.2)

def LightClientBootstrap.UnmarshalJSON (l : LightClientBootstrap) (input : JVal) :
    LightClientBootstrap × Option String :=
  match stage1LightClientBootstrap input with
  | .error e => (l, some ("invalid JSON: " ++ e))
  | .ok jso => LightClientBootstrap.unmarshalBody l jso

def decodeLightClientBootstrap (input : JVal) : Except String LightClientBootstrap :=
  match LightClientBootstrap.UnmarshalJSON LightClientBootstrap.zero input with
  | (l, none) => .ok l
  | (_, some e) => .error e

/-- `v1.LightClientBootstrap.MarshalJSON` (part_000 lines 43-54). -/
def LightClientBootstrap.MarshalJSON (l : LightClientBootstrap) : JVal :=
  .obj [("header", optJ (l.header.map (·.val))),
        ("current_sync_committee", optJ (l.currentSyncCommittee.map (·.val))),
        ("current_sync_committee_branch",
          .arr (l.currentSyncCommitteeBranch.map fun b => .str (hexEncodeBytes b)))]

/-- Canonical rendering of a bootstrap wire object, from the spec's words. -/
def canonLightClientBootstrap (j : JVal) : JVal :=
  match stage1LightClientBootstrap j with
  | .error _ => j
  | .ok jso =>
    .obj [("header", optJ (jso.header.map (·.val))),
          ("current_sync_committee", optJ (jso.currentSyncCommittee.map (·.val))),
          ("current_sync_committee_branch",
            match jso.currentSyncCommitteeBranch with
            | some ss => .arr (ss.map fun s => .str (canonHexStr s))
            | none => .null)]

/-- `api/v1.LightClientFinalityUpdate` (src/api/v1/lightclientfinalityupdate.go). -/
structure LightClientFinalityUpdate where
  attestedHeader : Option BeaconBlockHeader
  finalizedHeader : Option BeaconBlockHeader
  finalityBranch : List (List Nat)
  syncAggregate : Option SyncAggregate
  signatureSlot : Nat
deriving Repr

def LightClientFinalityUpdate.zero : LightClientFinalityUpdate :=
  ⟨none, none, [], none, 0⟩

/-- `v1.lightClientFinalityUpdateJSON`. -/
structure lightClientFinalityUpdateJSON where
  attestedHeader : Option BeaconBlockHeader
  finalizedHeader : Option BeaconBlockHeader
  finalityBranch : Option (List String)
  syncAggregate : Option SyncAggregate
  signatureSlot : String
deriving Repr

def lightClientFinalityUpdateJSONFieldErrs (k : String) (v : JVal) :
    Option String × Option String :=
  if k = "attested_header" then (opaqueFieldErr "phase0.beaconBlockHeaderJSON" v, none)
  else if k = "finalized_header" then (opaqueFieldErr "phase0.beaconBlockHeaderJSON" v, none)
  else if k = "finality_branch" then
    (none, strArrFieldErr "lightClientFinalityUpdateJSON" "finality_branch" v)
  else if k = "sync_aggregate" then (opaqueFieldErr "altair.syncAggregateJSON" v, none)
  else if k = "signature_slot" then
    (none, strFieldErr "lightClientFinalityUpdateJSON" "signature_slot" v)
  else (none, none)

def stage1LightClientFinalityUpdate (j : JVal) :
    Except String lightClientFinalityUpdateJSON :=
  match j with
  | .null => .ok ⟨none, none, none, none, ""⟩
  | .obj kvs =>
    match stage1Err lightClientFinalityUpdateJSONFieldErrs kvs with
    | some e => .error e
    | none =>
      .ok { attestedHeader := (extractOpaque (lastVal "attested_header" kvs)).map BeaconBlockHeader.mk
            finalizedHeader := (extractOpaque (lastVal "finalized_header" kvs)).map BeaconBlockHeader.mk
            finalityBranch := extractStrArr (lastVal "finality_branch" kvs)
            syncAggregate := (extractOpaque (lastVal "sync_aggregate" kvs)).map SyncAggregate.mk
            signatureSlot := extractStr "signature_slot" kvs }
  | v => .error (cannotUnmarshalValue v.typeName "v1.lightClientFinalityUpdateJSON")

/-- Validating body of `v1.LightClientFinalityUpdate.UnmarshalJSON`
(lines 64-114): `[][32]byte` branch without empty-string guard. -/
def LightClientFinalityUpdate.unmarshalBody (l0 : LightClientFinalityUpdate)
    (jso : lightClientFinalityUpdateJSON) : LightClientFinalityUpdate × Option String :=
  match jso.attestedHeader with
  | none => (l0, some "attested_header missing")
  | some ah =>
  let l1 := { l0 with attestedHeader := some ah }
  match jso.finalizedHeader with
  | none => (l1, some "finalized_header missing")
  | some fh =>
  let l2 := { l1 with finalizedHeader := some fh }
  match jso.finalityBranch with
  | none => (l2, some "finality_branch missing")
  | some fb =>
  if fb.length = 0 then (l2, some "finality_branch length cannot be 0")
  else
  let r3 := branchLoop32 "finality_branch" fb 0
    (List.replicate fb.length (List.replicate 32 0))
  let l3 := { l2 with finalityBranch := r3.1 }
  match r3.2 with
  | some e => (l3, some e)
  | none =>
  match jso.syncAggregate with
  | none => (l3, some "sync_aggregate missing")
  | some sa =>
  let l4 := { l3 with syncAggregate := some sa }
  if jso.signatureSlot = "" then (l4, some "signature_slot missing")
  else
  match goParseUint jso.signatureSlot with
  | .error e => (l4, some ("invalid value for slot: " ++ e))
  | .ok slot => ({ l4 with signatureSlot := slot }, none)

def LightClientFinalityUpdate.UnmarshalJSON (l : LightClientFinalityUpdate)
    (input : JVal) : LightClientFinalityUpdate × Option String :=
  match stage1LightClientFinalityUpdate input with
  | .error e => (l, some ("invalid JSON: " ++ e))
  | .ok jso => LightClientFinalityUpdate.unmarshalBody l jso

def decodeLightClientFinalityUpdate (input : JVal) :
    Except String LightClientFinalityUpdate :=
  match LightClientFinalityUpdate.UnmarshalJSON LightClientFinalityUpdate.zero input with
  | (l, none) => .ok l
  | (_, some e) => .error e

/-- `v1.LightClientFinalityUpdate.MarshalJSON` (lines 48-61). -/
def LightClientFinalityUpdate.MarshalJSON (l : LightClientFinalityUpdate) : JVal :=
  .obj [("attested_header", optJ (l.attestedHeader.map (·.val))),
        ("finalized_header", optJ (l.finalizedHeader.map (·.val))),
        ("finality_branch",
          .arr (l.finalityBranch.map fun b => .str (hexEncodeBytes b))),
        ("sync_aggregate", optJ (l.syncAggregate.map (·.val))),
        ("signature_slot", .str (goUintString l.signatureSlot))]

end v1

namespace altair

/-- `altair.LightClientHeader` (src/spec/altair/lightclientheader.go). -/
structure LightClientHeader where
  beacon : Option BeaconBlockHeader
deriving Repr

/-- `altair.lightClientHeaderJSON`. -/
def lightClientHeaderJSONFieldErrs (k : String) (v : JVal) :
    Option String × Option String :=
  if k = "beacon" then (opaqueFieldErr "phase0.beaconBlockHeaderJSON" v, none)
  else (none, none)

def stage1LightClientHeader (j : JVal) : Except String (Option BeaconBlockHeader) :=
  match j with
  | .null => .ok none
  | .obj kvs =>
    match stage1Err lightClientHeaderJSONFieldErrs kvs with
    | some e => .error e
    | none => .ok ((extractOpaque (lastVal "beacon" kvs)).map BeaconBlockHeader.mk)
  | v => .error (cannotUnmarshalValue v.typeName "altair.lightClientHeaderJSON")

/-- `altair.LightClientHeader.UnmarshalJSON` into a fresh receiver. -/
def decodeLightClientHeader (input : JVal) : Except String LightClientHeader :=
  match stage1LightClientHeader input with
  | .error e => .error ("invalid JSON: " ++ e)
  | .ok none => .error "beacon missing"
  | .ok (some b) => .ok ⟨some b⟩

/-- `altair.LightClientHeader.MarshalJSON`. -/
def LightClientHeader.MarshalJSON (l : LightClientHeader) : JVal :=
  .obj [("beacon", optJ (l.beacon.map (·.val)))]

/-- `altair.LightClientOptimisticUpdate`
(src/spec/altair/lightclientheader.go, second file). -/
structure LightClientOptimisticUpdate where
  attestedHeader : Option LightClientHeader
  syncAggregate : Option SyncAggregate
  signatureSlot : Nat
deriving Repr

def LightClientOptimisticUpdate.zero : LightClientOptimisticUpdate :=
  ⟨none, none, 0⟩

/-- `altair.lightClientOptimisticUpdateJSON`. -/
structure lightClientOptimisticUpdateJSON where
  attestedHeader : Option LightClientHeader
  syncAggregate : Option SyncAggregate
  signatureSlot : String
deriving Repr

def lightClientOptimisticUpdateJSONFieldErrs (k : String) (v : JVal) :
    Option String × Option String :=
  if k = "attested_header" then (subFieldErr decodeLightClientHeader v, none)
  else if k = "sync_aggregate" then (opaqueFieldErr "altair.syncAggregateJSON" v, none)
  else if k = "signature_slot" then
    (none, strFieldErr "lightClientOptimisticUpdateJSON" "signature_slot" v)
  else (none, none)

def stage1LightClientOptimisticUpdate (j : JVal) :
    Except String lightClientOptimisticUpdateJSON :=
  match j with
  | .null => .ok ⟨none, none, ""⟩
  | .obj kvs =>
    match stage1Err lightClientOptimisticUpdateJSONFieldErrs kvs with
    | some e => .error e
    | none =>
      .ok { attestedHeader := extractSub decodeLightClientHeader (lastVal "attested_header" kvs)
            syncAggregate := (extractOpaque (lastVal "sync_aggregate" kvs)).map SyncAggregate.mk
            signatureSlot := extractStr "signature_slot" kvs }
  | v => .error (cannotUnmarshalValue v.typeName "altair.lightClientOptimisticUpdateJSON")

/-- Validating body of `altair.LightClientOptimisticUpdate.UnmarshalJSON`
(lines 116-143). -/
def LightClientOptimisticUpdate.unmarshalBody (l0 : LightClientOptimisticUpdate)
    (jso : lightClientOptimisticUpdateJSON) :
    LightClientOptimisticUpdate × Option String :=
  match jso.attestedHeader with
  | none => (l0, some "attested_header missing")
  | some ah =>
  let l1 := { l0 with attestedHeader := some ah }
  match jso.syncAggregate with
  | none => (l1, some "sync_aggregate missing")
  | some sa =>
  let l2 := { l1 with syncAggregate := some sa }
  if jso.signatureSlot = "" then (l2, some "signature_slot missing")
  else
  match goParseUint jso.signatureSlot with
  | .error e => (l2, some ("invalid value for slot: " ++ e))
  | .ok slot => ({ l2 with signatureSlot := slot }, none)

def LightClientOptimisticUpdate.UnmarshalJSON (l : LightClientOptimisticUpdate)
    (input : JVal) : LightClientOptimisticUpdate × Option String :=
  match stage1LightClientOptimisticUpdate input with
  | .error e => (l, some ("invalid JSON: " ++ e))
  | .ok jso => LightClientOptimisticUpdate.unmarshalBody l jso

def decodeLightClientOptimisticUpdate (input : JVal) :
    Except String LightClientOptimisticUpdate :=
  match LightClientOptimisticUpdate.UnmarshalJSON LightClientOptimisticUpdate.zero input with
  | (l, none) => .ok l
  | (_, some e) => .error e

/-- `altair.LightClientOptimisticUpdate.MarshalJSON` (lines 107-113). -/
def LightClientOptimisticUpdate.MarshalJSON (l : LightClientOptimisticUpdate) : JVal :=
  .obj [("attested_header", (l.attestedHeader.map (·.MarshalJSON)).getD .null),
        ("sync_aggregate", optJ (l.syncAggregate.map (·.val))),
        ("signature_slot", .str (goUintString l.signatureSlot))]

end altair

namespace capella

/-- `capella.LightClientHeader` (src/spec/capella/lightclientheader.go). -/
structure LightClientHeader where
  beacon : Option BeaconBlockHeader
  execution : Option ExecutionPayloadHeader
  executionBranch : List (List Nat)
deriving Repr

def LightClientHeader.zero : LightClientHeader := ⟨none, none, []⟩

/-- `capella.lightClientHeaderJSON`. -/
structure lightClientHeaderJSON where
  beacon : Option BeaconBlockHeader
  execution : Option ExecutionPayloadHeader
  executionBranch : Option (List String)
deriving Repr

def lightClientHeaderJSONFieldErrs (k : String) (v : JVal) :
    Option String × Option String :=
  if k = "beacon" then (opaqueFieldErr "phase0.beaconBlockHeaderJSON" v, none)
  else if k = "execution" then
    (opaqueFieldErr "capella.executionPayloadHeaderJSON" v, none)
  else if k = "execution_branch" then
    (none, strArrFieldErr "lightClientHeaderJSON" "execution_branch" v)
  else (none, none)

def stage1LightClientHeader (j : JVal) : Except String lightClientHeaderJSON :=
  match j with
  | .null => .ok ⟨none, none, none⟩
  | .obj kvs =>
    match stage1Err lightClientHeaderJSONFieldErrs kvs with
    | some e => .error e
    | none =>
      .ok { beacon := (extractOpaque (lastVal "beacon" kvs)).map BeaconBlockHeader.mk
            execution := (extractOpaque (lastVal "execution" kvs)).map ExecutionPayloadHeader.mk
            executionBranch := extractStrArr (lastVal "execution_branch" kvs) }
  | v => .error (cannotUnmarshalValue v.typeName "capella.lightClientHeaderJSON")

/-- Validating body of `capella.LightClientHeader.UnmarshalJSON`
(lines 57-96): `[][]byte` branch with empty-string guard. -/
def LightClientHeader.unmarshalBody (l0 : LightClientHeader)
    (jso : lightClientHeaderJSON) : LightClientHeader × Option String :=
  match jso.beacon with
  | none => (l0, some "beacon missing")
  | some b =>
  let l1 := { l0 with beacon := some b }
  match jso.execution with
  | none => (l1, some "execution missing")
  | some ex =>
  let l2 := { l1 with execution := some ex }
  match jso.executionBranch with
  | none => (l2, some "execution_branch missing")
  | some eb =>
  if eb.length = 0 then (l2, some "execution_branch length cannot be 0")
  else
  let r3 := branchLoopGuard "execution_branch" eb 0 (List.replicate eb.length [])
  ({ l2 with executionBranch := r3.1 }, r3.2)

def LightClientHeader.UnmarshalJSON (l : LightClientHeader) (input : JVal) :
    LightClientHeader × Option String :=
  match stage1LightClientHeader input with
  | .error e => (l, some ("invalid JSON: " ++ e))
  | .ok jso => LightClientHeader.unmarshalBody l jso

def decodeLightClientHeader (input : JVal) : Except String LightClientHeader :=
  match LightClientHeader.UnmarshalJSON LightClientHeader.zero input with
  | (l, none) => .ok l
  | (_, some e) => .error e

/-- `capella.LightClientHeader.MarshalJSON` (lines 43-54). -/
def LightClientHeader.MarshalJSON (l : LightClientHeader) : JVal :=
  .obj [("beacon", optJ (l.beacon.map (·.val))),
        ("execution", optJ (l.execution.map (·.val))),
        ("execution_branch",
          .arr (l.executionBranch.map fun b => .str (hexEncodeBytes b)))]

/-- `capella.LightClientBootstrap` (src/unnamed/part_002, first file). -/
structure LightClientBootstrap where
  header : Option LightClientHeader
  currentSyncCommittee : Option SyncCommittee
  currentSyncCommitteeBranch : List (List Nat)
deriving Repr

def LightClientBootstrap.zero : LightClientBootstrap := ⟨none, none, []⟩

/-- `capella.lightClientBootstrapJSON`. -/
structure lightClientBootstrapJSON where
  header : Option LightClientHeader
  currentSyncCommittee : Option SyncCommittee
  currentSyncCommitteeBranch : Option (List String)
deriving Repr

def lightClientBootstrapJSONFieldErrs (k : String) (v : JVal) :
    Option String × Option String :=
  if k = "header" then (subFieldErr decodeLightClientHeader v, none)
  else if k = "current_sync_committee" then
    (opaqueFieldErr "altair.syncCommitteeJSON" v, none)
  else if k = "current_sync_committee_branch" then
    (none, strArrFieldErr "lightClientBootstrapJSON" "current_sync_committee_branch" v)
  else (none, none)

def stage1LightClientBootstrap (j : JVal) : Except String lightClientBootstrapJSON :=
  match j with
  | .null => .ok ⟨none, none, none⟩
  | .obj kvs =>
    match stage1Err lightClientBootstrapJSONFieldErrs kvs with
    | some e => .error e
    | none =>
      .ok { header := extractSub decodeLightClientHeader (lastVal "header" kvs)
            currentSyncCommittee :=
              (extractOpaque (lastVal "current_sync_committee" kvs)).map SyncCommittee.mk
            currentSyncCommitteeBranch :=
              extractStrArr (lastVal "current_sync_committee_branch" kvs) }
  | v => .error (cannotUnmarshalValue v.typeName "capella.lightClientBootstrapJSON")

/-- Validating body of `capella.LightClientBootstrap.UnmarshalJSON`
(part_002 lines 56-95): `[][]byte` branch with empty-string guard. -/
def LightClientBootstrap.unmarshalBody (l0 : LightClientBootstrap)
    (jso : lightClientBootstrapJSON) : LightClientBootstrap × Option String :=
  match jso.header with
  | none => (l0, some "header missing")
  | some h =>
  let l1 := { l0 with header := some h }
  match jso.currentSyncCommittee with
  | none => (l1, some "current_sync_committee missing")
  | some sc =>
  let l2 := { l1 with currentSyncCommittee := some sc }
  match jso.currentSyncCommitteeBranch with
  | none => (l2, some "current_sync_committee_branch missing")
  | some br =>
  if br.length = 0 then (l2, some "current_sync_committee_branch length cannot be 0")
  else
  let r3 := branchLoopGuard "current_sync_committee_branch" br 0
    (List.replicate br.length [])
  ({ l2 with currentSyncCommitteeBranch := r3.1 }, r3.2)

def LightClientBootstrap.UnmarshalJSON (l : LightClientBootstrap) (input : JVal) :
    LightClientBootstrap × Option String :=
  match stage1LightClientBootstrap input with
  | .error e => (l, some ("invalid JSON: " ++ e))
  | .ok jso => LightClientBootstrap.unmarshalBody l jso

def decodeLightClientBootstrap (input : JVal) : Except String LightClientBootstrap :=
  match LightClientBootstrap.UnmarshalJSON LightClientBootstrap.zero input with
  | (l, none) => .ok l
  | (_, some e) => .error e

end capella

/-! ## Per-fork record shapes shared by the versioned codecs

Modelled from the spec: the per-fork `LightClientUpdate`,
`LightClientFinalityUpdate`, `LightClientOptimisticUpdate` and
`LightClientBootstrap` codecs of packages `spec/altair`, `spec/capella` and
`spec/deneb` referenced by src/http/lightclient.go are not under src/; the
spec (§3, §4.1) gives them the field lists below, and the codec pattern —
field checks in declaration order, `<field> missing`, `<field> length cannot
be 0`, per-element hex decoding with the empty-string guard, `invalid value
for slot` — is the one every sibling codec in src/ implements and the one
the in-src deneb test files (src/unnamed/part_002, part_003,
src/spec/deneb/lightclientoptimisticupdate_test.go) pin down message by
message.  The shapes differ across forks only in the header type, so they
are given as one template over the header codec. -/

/-- Update record template over the fork's header type. -/
structure LCUpdateRec (H : Type) where
  attestedHeader : Option H
  nextSyncCommittee : Option SyncCommittee
  nextSyncCommitteeBranch : List (List Nat)
  finalizedHeader : Option H
  finalityBranch : List (List Nat)
  syncAggregate : Option SyncAggregate
  signatureSlot : Nat
deriving Repr

/-- Wire struct of the update template. -/
structure LCUpdateJso (H : Type) where
  attestedHeader : Option H
  nextSyncCommittee : Option SyncCommittee
  nextSyncCommitteeBranch : Option (List String)
  finalizedHeader : Option H
  finalityBranch : Option (List String)
  syncAggregate : Option SyncAggregate
  signatureSlot : String
deriving Repr

def lcUpdateFieldErrs {H : Type} (decH : JVal → Except String H) (jsoTy : String)
    (k : String) (v : JVal) : Option String × Option String :=
  if k = "attested_header" then (subFieldErr decH v, none)
  else if k = "next_sync_committee" then (opaqueFieldErr "altair.syncCommitteeJSON" v, none)
  else if k = "next_sync_committee_branch" then
    (none, strArrFieldErr jsoTy "next_sync_committee_branch" v)
  else if k = "finalized_header" then (subFieldErr decH v, none)
  else if k = "finality_branch" then (none, strArrFieldErr jsoTy "finality_branch" v)
  else if k = "sync_aggregate" then (opaqueFieldErr "altair.syncAggregateJSON" v, none)
  else if k = "signature_slot" then (none, strFieldErr jsoTy "signature_slot" v)
  else (none, none)

def stage1LCUpdate {H : Type} (decH : JVal → Except String H) (jsoTy : String)
    (j : JVal) : Except String (LCUpdateJso H) :=
  match j with
  | .null => .ok ⟨none, none, none, none, none, none, ""⟩
  | .obj kvs =>
    match stage1Err (lcUpdateFieldErrs decH jsoTy) kvs with
    | some e => .error e
    | none =>
      .ok { attestedHeader := extractSub decH (lastVal "attested_header" kvs)
            nextSyncCommittee := (extractOpaque (lastVal "next_sync_committee" kvs)).map SyncCommittee.mk
            nextSyncCommitteeBranch := extractStrArr (lastVal "next_sync_committee_branch" kvs)
            finalizedHeader := extractSub decH (lastVal "finalized_header" kvs)
            finalityBranch := extractStrArr (lastVal "finality_branch" kvs)
            syncAggregate := (extractOpaque (lastVal "sync_aggregate" kvs)).map SyncAggregate.mk
            signatureSlot := extractStr "signature_slot" kvs }
  | v => .error (cannotUnmarshalValue v.typeName jsoTy)

/-- Validating body of the update template, the exact pattern of
`v1.LightClientUpdate.UnmarshalJSON`: note that only emptiness and the
32-byte element length are checked on the branches, never the element
count. -/
def lcUpdateBody {H : Type} (jso : LCUpdateJso H) : Except String (LCUpdateRec H) :=
  match jso.attestedHeader with
  | none => .error "attested_header missing"
  | some ah =>
  match jso.nextSyncCommittee with
  | none => .error "next_sync_committee missing"
  | some sc =>
  match jso.nextSyncCommitteeBranch with
  | none => .error "next_sync_committee_branch missing"
  | some nb =>
  if nb.length = 0 then .error "next_sync_committee_branch length cannot be 0"
  else
  let r1 := branchLoopGuard "next_sync_committee_branch" nb 0 (List.replicate nb.length [])
  match r1.2 with
  | some e => .error e
  | none =>
  match jso.finalizedHeader with
  | none => .error "finalized_header missing"
  | some fh =>
  match jso.finalityBranch with
  | none => .error "finality_branch missing"
  | some fb =>
  if fb.length = 0 then .error "finality_branch length cannot be 0"
  else
  let r2 := branchLoopGuard "finality_branch" fb 0 (List.replicate fb.length [])
  match r2.2 with
  | some e => .error e
  | none =>
  match jso.syncAggregate with
  | none => .error "sync_aggregate missing"
  | some sa =>
  if jso.signatureSlot = "" then .error "signature_slot missing"
  else
  match goParseUint jso.signatureSlot with
  | .error e => .error ("invalid value for slot: " ++ e)
  | .ok slot => .ok ⟨some ah, some sc, r1.1, some fh, r2.1, some sa, slot⟩

def decodeLCUpdate {H : Type} (decH : JVal → Except String H) (jsoTy : String)
    (j : JVal) : Except String (LCUpdateRec H) :=
  match stage1LCUpdate decH jsoTy j with
  | .error e => .error ("invalid JSON: " ++ e)
  | .ok jso => lcUpdateBody jso

/-- Finality-update record template. -/
structure LCFinalityUpdateRec (H : Type) where
  attestedHeader : Option H
  finalizedHeader : Option H
  finalityBranch : List (List Nat)
  syncAggregate : Option SyncAggregate
  signatureSlot : Nat
deriving Repr

structure LCFinalityUpdateJso (H : Type) where
  attestedHeader : Option H
  finalizedHeader : Option H
  finalityBranch : Option (List String)
  syncAggregate : Option SyncAggregate
  signatureSlot : String
deriving Repr

def lcFinalityUpdateFieldErrs {H : Type} (decH : JVal → Except String H)
    (jsoTy : String) (k : String) (v : JVal) : Option String × Option String :=
  if k = "attested_header" then (subFieldErr decH v, none)
  else if k = "finalized_header" then (subFieldErr decH v, none)
  else if k = "finality_branch" then (none, strArrFieldErr jsoTy "finality_branch" v)
  else if k = "sync_aggregate" then (opaqueFieldErr "altair.syncAggregateJSON" v, none)
  else if k = "signature_slot" then (none, strFieldErr jsoTy "signature_slot" v)
  else (none, none)

def stage1LCFinalityUpdate {H : Type} (decH : JVal → Except String H)
    (jsoTy : String) (j : JVal) : Except String (LCFinalityUpdateJso H) :=
  match j with
  | .null => .ok ⟨none, none, none, none, ""⟩
  | .obj kvs =>
    match stage1Err (lcFinalityUpdateFieldErrs decH jsoTy) kvs with
    | some e => .error e
    | none =>
      .ok { attestedHeader := extractSub decH (lastVal "attested_header" kvs)
            finalizedHeader := extractSub decH (lastVal "finalized_header" kvs)
            finalityBranch := extractStrArr (lastVal "finality_branch" kvs)
            syncAggregate := (extractOpaque (lastVal "sync_aggregate" kvs)).map SyncAggregate.mk
            signatureSlot := extractStr "signature_slot" kvs }
  | v => .error (cannotUnmarshalValue v.typeName jsoTy)

def lcFinalityUpdateBody {H : Type} (jso : LCFinalityUpdateJso H) :
    Except String (LCFinalityUpdateRec H) :=
  match jso.attestedHeader with
  | none => .error "attested_header missing"
  | some ah =>
  match jso.finalizedHeader with
  | none => .error "finalized_header missing"
  | some fh =>
  match jso.finalityBranch with
  | none => .error "finality_branch missing"
  | some fb =>
  if fb.length = 0 then .error "finality_branch length cannot be 0"
  else
  let r := branchLoopGuard "finality_branch" fb 0 (List.replicate fb.length [])
  match r.2 with
  | some e => .error e
  | none =>
  match jso.syncAggregate with
  | none => .error "sync_aggregate missing"
  | some sa =>
  if jso.signatureSlot = "" then .error "signature_slot missing"
  else
  match goParseUint jso.signatureSlot with
  | .error e => .error ("invalid value for slot: " ++ e)
  | .ok slot => .ok ⟨some ah, some fh, r.1, some sa, slot⟩

def decodeLCFinalityUpdate {H : Type} (decH : JVal → Except String H)
    (jsoTy : String) (j : JVal) : Except String (LCFinalityUpdateRec H) :=
  match stage1LCFinalityUpdate decH jsoTy j with
  | .error e => .error ("invalid JSON: " ++ e)
  | .ok jso => lcFinalityUpdateBody jso

/-- Optimistic-update record template (the altair instance is in src/ as
`altair.LightClientOptimisticUpdate`; the template generalises its pattern
over the header type). -/
structure LCOptimisticUpdateRec (H : Type) where
  attestedHeader : Option H
  syncAggregate : Option SyncAggregate
  signatureSlot : Nat
deriving Repr

structure LCOptimisticUpdateJso (H : Type) where
  attestedHeader : Option H
  syncAggregate : Option SyncAggregate
  signatureSlot : String
deriving Repr

def lcOptimisticUpdateFieldErrs {H : Type} (decH : JVal → Except String H)
    (jsoTy : String) (k : String) (v : JVal) : Option String × Option String :=
  if k = "attested_header" then (subFieldErr decH v, none)
  else if k = "sync_aggregate" then (opaqueFieldErr "altair.syncAggregateJSON" v, none)
  else if k = "signature_slot" then (none, strFieldErr jsoTy "signature_slot" v)
  else (none, none)

def stage1LCOptimisticUpdate {H : Type} (decH : JVal → Except String H)
    (jsoTy : String) (j : JVal) : Except String (LCOptimisticUpdateJso H) :=
  match j with
  | .null => .ok ⟨none, none, ""⟩
  | .obj kvs =>
    match stage1Err (lcOptimisticUpdateFieldErrs decH jsoTy) kvs with
    | some e => .error e
    | none =>
      .ok { attestedHeader := extractSub decH (lastVal "attested_header" kvs)
            syncAggregate := (extractOpaque (lastVal "sync_aggregate" kvs)).map SyncAggregate.mk
            signatureSlot := extractStr "signature_slot" kvs }
  | v => .error (cannotUnmarshalValue v.typeName jsoTy)

def lcOptimisticUpdateBody {H : Type} (jso : LCOptimisticUpdateJso H) :
    Except String (LCOptimisticUpdateRec H) :=
  match jso.attestedHeader with
  | none => .error "attested_header missing"
  | some ah =>
  match jso.syncAggregate with
  | none => .error "sync_aggregate missing"
  | some sa =>
  if jso.signatureSlot = "" then .error "signature_slot missing"
  else
  match goParseUint jso.signatureSlot with
  | .error e => .error ("invalid value for slot: " ++ e)
  | .ok slot => .ok ⟨some ah, some sa, slot⟩

def decodeLCOptimisticUpdate {H : Type} (decH : JVal → Except String H)
    (jsoTy : String) (j : JVal) : Except String (LCOptimisticUpdateRec H) :=
  match stage1LCOptimisticUpdate decH jsoTy j with
  | .error e => .error ("invalid JSON: " ++ e)
  | .ok jso => lcOptimisticUpdateBody jso

/-- Bootstrap record template. -/
structure LCBootstrapRec (H : Type) where
  header : Option H
  currentSyncCommittee : Option SyncCommittee
  currentSyncCommitteeBranch : List (List Nat)
deriving Repr

structure LCBootstrapJso (H : Type) where
  header : Option H
  currentSyncCommittee : Option SyncCommittee
  currentSyncCommitteeBranch : Option (List String)
deriving Repr

def lcBootstrapFieldErrs {H : Type} (decH : JVal → Except String H)
    (jsoTy : String) (k : String) (v : JVal) : Option String × Option String :=
  if k = "header" then (subFieldErr decH v, none)
  else if k = "current_sync_committee" then
    (opaqueFieldErr "altair.syncCommitteeJSON" v, none)
  else if k = "current_sync_committee_branch" then
    (none, strArrFieldErr jsoTy "current_sync_committee_branch" v)
  else (none, none)

def stage1LCBootstrap {H : Type} (decH : JVal → Except String H)
    (jsoTy : String) (j : JVal) : Except String (LCBootstrapJso H) :=
  match j with
  | .null => .ok ⟨none, none, none⟩
  | .obj kvs =>
    match stage1Err (lcBootstrapFieldErrs decH jsoTy) kvs with
    | some e => .error e
    | none =>
      .ok { header := extractSub decH (lastVal "header" kvs)
            currentSyncCommittee :=
              (extractOpaque (lastVal "current_sync_committee" kvs)).map SyncCommittee.mk
            currentSyncCommitteeBranch :=
              extractStrArr (lastVal "current_sync_committee_branch" kvs) }
  | v => .error (cannotUnmarshalValue v.typeName jsoTy)

def lcBootstrapBody {H : Type} (jso : LCBootstrapJso H) :
    Except String (LCBootstrapRec H) :=
  match jso.header with
  | none => .error "header missing"
  | some h =>
  match jso.currentSyncCommittee with
  | none => .error "current_sync_committee missing"
  | some sc =>
  match jso.currentSyncCommitteeBranch with
  | none => .error "current_sync_committee_branch missing"
  | some br =>
  if br.length = 0 then .error "current_sync_committee_branch length cannot be 0"
  else
  let r := branchLoopGuard "current_sync_committee_branch" br 0
    (List.replicate br.length [])
  match r.2 with
  | some e => .error e
  | none => .ok ⟨some h, some sc, r.1⟩

def decodeLCBootstrap {H : Type} (decH : JVal → Except String H)
    (jsoTy : String) (j : JVal) : Except String (LCBootstrapRec H) :=
  match stage1LCBootstrap decH jsoTy j with
  | .error e => .error ("invalid JSON: " ++ e)
  | .ok jso => lcBootstrapBody jso

namespace deneb

/-- Modelled from the spec: `deneb.LightClientHeader` — beacon header,
execution-payload header and the post-merge execution inclusion branch,
decoded with the same pattern as the in-src `capella.LightClientHeader`. -/
structure LightClientHeader where
  beacon : Option BeaconBlockHeader
  execution : Option ExecutionPayloadHeader
  executionBranch : List (List Nat)
deriving Repr

def lightClientHeaderFieldErrs (k : String) (v : JVal) :
    Option String × Option String :=
  if k = "beacon" then (opaqueFieldErr "phase0.beaconBlockHeaderJSON" v, none)
  else if k = "execution" then
    (opaqueFieldErr "deneb.executionPayloadHeaderJSON" v, none)
  else if k = "execution_branch" then
    (none, strArrFieldErr "lightClientHeaderJSON" "execution_branch" v)
  else (none, none)

/-- Modelled from the spec: `deneb.LightClientHeader.UnmarshalJSON`,
following the in-src capella instance line by line. -/
def decodeLightClientHeader (j : JVal) : Except String LightClientHeader :=
  match j with
  | .null => .ok ⟨none, none, []⟩
  | .obj kvs =>
    match stage1Err lightClientHeaderFieldErrs kvs with
    | some e => .error ("invalid JSON: " ++ e)
    | none =>
      match (extractOpaque (lastVal "beacon" kvs)).map BeaconBlockHeader.mk with
      | none => .error "beacon missing"
      | some b =>
      match (extractOpaque (lastVal "execution" kvs)).map ExecutionPayloadHeader.mk with
      | none => .error "execution missing"
      | some ex =>
      match extractStrArr (lastVal "execution_branch" kvs) with
      | none => .error "execution_branch missing"
      | some eb =>
      if eb.length = 0 then .error "execution_branch length cannot be 0"
      else
      let r := branchLoopGuard "execution_branch" eb 0 (List.replicate eb.length [])
      match r.2 with
      | some e => .error e
      | none => .ok ⟨some b, some ex, r.1⟩
  | v => .error ("invalid JSON: " ++ cannotUnmarshalValue v.typeName "deneb.lightClientHeaderJSON")

end deneb

namespace altairMod

/-- Modelled from the spec: `altair.LightClientUpdate`, the shared pre-merge
update shape (also used for bellatrix responses). -/
def decodeLightClientUpdate : JVal → Except String (LCUpdateRec altair.LightClientHeader) :=
  decodeLCUpdate altair.decodeLightClientHeader "altair.lightClientUpdateJSON"

/-- Modelled from the spec: `altair.LightClientFinalityUpdate`. -/
def decodeLightClientFinalityUpdate :
    JVal → Except String (LCFinalityUpdateRec altair.LightClientHeader) :=
  decodeLCFinalityUpdate altair.decodeLightClientHeader "altair.lightClientFinalityUpdateJSON"

/-- Modelled from the spec: `altair.LightClientBootstrap`. -/
def decodeLightClientBootstrap :
    JVal → Except String (LCBootstrapRec altair.LightClientHeader) :=
  decodeLCBootstrap altair.decodeLightClientHeader "altair.lightClientBootstrapJSON"

/-- `altair.LightClientOptimisticUpdate` expressed in the template form used
by the versioned envelopes (the concrete in-src codec is
`altair.decodeLightClientOptimisticUpdate`). -/
def decodeLightClientOptimisticUpdate :
    JVal → Except String (LCOptimisticUpdateRec altair.LightClientHeader) :=
  decodeLCOptimisticUpdate altair.decodeLightClientHeader "altair.lightClientOptimisticUpdateJSON"

end altairMod

namespace capellaMod

/-- Modelled from the spec: `capella.LightClientUpdate`. -/
def decodeLightClientUpdate : JVal → Except String (LCUpdateRec capella.LightClientHeader) :=
  decodeLCUpdate capella.decodeLightClientHeader "capella.lightClientUpdateJSON"

/-- Modelled from the spec: `capella.LightClientFinalityUpdate`. -/
def decodeLightClientFinalityUpdate :
    JVal → Except String (LCFinalityUpdateRec capella.LightClientHeader) :=
  decodeLCFinalityUpdate capella.decodeLightClientHeader "capella.lightClientFinalityUpdateJSON"

/-- Modelled from the spec: `capella.LightClientOptimisticUpdate`. -/
def decodeLightClientOptimisticUpdate :
    JVal → Except String (LCOptimisticUpdateRec capella.LightClientHeader) :=
  decodeLCOptimisticUpdate capella.decodeLightClientHeader "capella.lightClientOptimisticUpdateJSON"

end capellaMod

namespace denebMod

/-- Modelled from the spec: `deneb.LightClientUpdate`. -/
def decodeLightClientUpdate : JVal → Except String (LCUpdateRec deneb.LightClientHeader) :=
  decodeLCUpdate deneb.decodeLightClientHeader "deneb.lightClientUpdateJSON"

/-- Modelled from the spec: `deneb.LightClientFinalityUpdate`. -/
def decodeLightClientFinalityUpdate :
    JVal → Except String (LCFinalityUpdateRec deneb.LightClientHeader) :=
  decodeLCFinalityUpdate deneb.decodeLightClientHeader "deneb.lightClientFinalityUpdateJSON"

/-- Modelled from the spec: `deneb.LightClientBootstrap`. -/
def decodeLightClientBootstrap :
    JVal → Except String (LCBootstrapRec deneb.LightClientHeader) :=
  decodeLCBootstrap deneb.decodeLightClientHeader "deneb.lightClientBootstrapJSON"

/-- Modelled from the spec: `deneb.LightClientOptimisticUpdate`. -/
def decodeLightClientOptimisticUpdate :
    JVal → Except String (LCOptimisticUpdateRec deneb.LightClientHeader) :=
  decodeLCOptimisticUpdate deneb.decodeLightClientHeader "deneb.lightClientOptimisticUpdateJSON"

end denebMod

/-! ## The `spec` package: fork tags and versioned envelopes
(src/unnamed/part_002, second file) -/

/-- `spec.DataVersion`: the five schema generations. -/
inductive DataVersion : Type where
  | phase0 : DataVersion
  | altair : DataVersion
  | bellatrix : DataVersion
  | capella : DataVersion
  | deneb : DataVersion
deriving Repr, DecidableEq

/-- `DataVersion.String()`, as interpolated by `%s`. -/
def DataVersion.toStr : DataVersion → String
  | .phase0 => "phase0"
  | .altair => "altair"
  | .bellatrix => "bellatrix"
  | .capella => "capella"
  | .deneb => "deneb"

/-- The Go conversion `string(res.consensusVersion)` used for the updates
metadata: `DataVersion` is an integer type (`phase0` = 0, in fork order), so
the conversion yields the one-rune string of that code point, not the
`String()` rendering. -/
def DataVersion.runeStr : DataVersion → String
  | .phase0 => String.singleton (Char.ofNat 0)
  | .altair => String.singleton (Char.ofNat 1)
  | .bellatrix => String.singleton (Char.ofNat 2)
  | .capella => String.singleton (Char.ofNat 3)
  | .deneb => String.singleton (Char.ofNat 4)

/-- Out-of-band response metadata (a decoded JSON object). -/
abbrev Metadata := List (String × JVal)

/-- `spec.VersionedLCBootstrap`. -/
structure VersionedLCBootstrap where
  Version : DataVersion
  Altair : Option (LCBootstrapRec altair.LightClientHeader) := none
  Bellatrix : Option (LCBootstrapRec altair.LightClientHeader) := none
  Capella : Option capella.LightClientBootstrap := none
  Deneb : Option (LCBootstrapRec deneb.LightClientHeader) := none
deriving Repr

/-- `spec.VersionedLCUpdate`. -/
structure VersionedLCUpdate where
  Version : DataVersion
  Altair : Option (LCUpdateRec altair.LightClientHeader) := none
  Bellatrix : Option (LCUpdateRec altair.LightClientHeader) := none
  Capella : Option (LCUpdateRec capella.LightClientHeader) := none
  Deneb : Option (LCUpdateRec deneb.LightClientHeader) := none
deriving Repr

/-- `spec.VersionedLCFinalityUpdate`. -/
structure VersionedLCFinalityUpdate where
  Version : DataVersion
  Altair : Option (LCFinalityUpdateRec altair.LightClientHeader) := none
  Bellatrix : Option (LCFinalityUpdateRec altair.LightClientHeader) := none
  Capella : Option (LCFinalityUpdateRec capella.LightClientHeader) := none
  Deneb : Option (LCFinalityUpdateRec deneb.LightClientHeader) := none
deriving Repr

/-- `spec.VersionedLCOptimisticUpdate`. -/
structure VersionedLCOptimisticUpdate where
  Version : DataVersion
  Altair : Option altair.LightClientOptimisticUpdate := none
  Bellatrix : Option altair.LightClientOptimisticUpdate := none
  Capella : Option (LCOptimisticUpdateRec capella.LightClientHeader) := none
  Deneb : Option (LCOptimisticUpdateRec deneb.LightClientHeader) := none
deriving Repr

/-! ## The content-negotiation layer (src/http/lightclient.go, second file) -/

/-- `api.Response[T]`. -/
structure ApiResponse (α : Type) where
  Data : α
  Metadata : Metadata
deriving Repr

/-- Modelled from the spec: the shared `decodeJSONResponse` helper is not
under src/; per §6 a textual response carries its record under `data` with
the remaining members (e.g. `version`) as out-of-band metadata. -/
def decodeJSONResponse {α : Type} (dec : JVal → Except String α) (body : JVal) :
    Except String (α × Metadata) :=
  match body with
  | .obj kvs =>
    match lastVal "data" kvs with
    | some d => (dec d).map fun r => (r, kvs.filter fun p => !(p.1 == "data"))
    | none => .error "no data in response"
  | v => .error (cannotUnmarshalValue v.typeName "response")

/-- The declared encoding of a response. -/
inductive ContentType : Type where
  | ssz : ContentType
  | json : ContentType
  | other : String → ContentType
deriving Repr, DecidableEq

/-- `ContentType.String()`, as interpolated by `%v`. -/
def ContentType.toStr : ContentType → String
  | .ssz => "application/octet-stream"
  | .json => "application/json"
  | .other s => s

/-- The `httpResponse` handed to the per-operation decoders: the declared
encoding, the declared fork version, and the body — `body` as raw bytes for
the SSZ path, `bodyJson` as the same body under the JSON parser, plus the
response headers already shaped as metadata (`metadataFromHeaders`). -/
structure HttpResponse where
  contentType : ContentType
  consensusVersion : DataVersion
  body : List Nat
  bodyJson : JVal
  headersMeta : Metadata

/-- `Service.lightClientBootstrapFromSSZ` (lines 177-212).  The per-fork
`UnmarshalSSZ` decoders live outside src/ and are taken as arguments; the
altair decoder is the one shared shape used for both the altair and
bellatrix branches, exactly as in the source switch. -/
def lightClientBootstrapFromSSZ
    (decA : List Nat → Except String (LCBootstrapRec altair.LightClientHeader))
    (decC : List Nat → Except String capella.LightClientBootstrap)
    (decD : List Nat → Except String (LCBootstrapRec deneb.LightClientHeader))
    (version : DataVersion) (body : List Nat) (headersMeta : Metadata) :
    Except String (ApiResponse VersionedLCBootstrap) :=
  let core : Except String VersionedLCBootstrap :=
    match version with
    | .phase0 => .error ("unsupported version " ++ DataVersion.toStr .phase0)
    | .altair => (decA body).map fun r => { Version := .altair, Altair := some r }
    | .bellatrix => (decA body).map fun r => { Version := .bellatrix, Bellatrix := some r }
    | .capella => (decC body).map fun r => { Version := .capella, Capella := some r }
    | .deneb => (decD body).map fun r => { Version := .deneb, Deneb := some r }
  match core with
  | .error e =>
    .error ("failed to decode " ++ version.toStr ++ " light client optimistic update: " ++ e)
  | .ok d => .ok { Data := d, Metadata := headersMeta }

/-- `Service.lightClientBootstrapFromJSON` (lines 214-244). -/
def lightClientBootstrapFromJSON (version : DataVersion) (body : JVal) :
    Except String (ApiResponse VersionedLCBootstrap) :=
  match version with
  | .phase0 => .error ("unsupported version " ++ DataVersion.toStr .phase0)
  | .altair => (decodeJSONResponse altairMod.decodeLightClientBootstrap body).map
      fun r => { Data := { Version := .altair, Altair := some r.1 }, Metadata := r.2 }
  | .bellatrix => (decodeJSONResponse altairMod.decodeLightClientBootstrap body).map
      fun r => { Data := { Version := .bellatrix, Bellatrix := some r.1 }, Metadata := r.2 }
  | .capella => (decodeJSONResponse capella.decodeLightClientBootstrap body).map
      fun r => { Data := { Version := .capella, Capella := some r.1 }, Metadata := r.2 }
  | .deneb => (decodeJSONResponse denebMod.decodeLightClientBootstrap body).map
      fun r => { Data := { Version := .deneb, Deneb := some r.1 }, Metadata := r.2 }

/-- `Service.LightClientBootstrap` content-type dispatch (lines 167-174). -/
def serviceLightClientBootstrap
    (decA : List Nat → Except String (LCBootstrapRec altair.LightClientHeader))
    (decC : List Nat → Except String capella.LightClientBootstrap)
    (decD : List Nat → Except String (LCBootstrapRec deneb.LightClientHeader))
    (resp : HttpResponse) : Except String (ApiResponse VersionedLCBootstrap) :=
  match resp.contentType with
  | .ssz => lightClientBootstrapFromSSZ decA decC decD resp.consensusVersion resp.body
      resp.headersMeta
  | .json => lightClientBootstrapFromJSON resp.consensusVersion resp.bodyJson
  | ct => .error ("unhandled content type " ++ ct.toStr)

/-- One iteration of the per-element switch of
`Service.lightClientUpdatesFromJSON` (lines 305-331): the fork tag of the
whole response is applied to the element. -/
def decodeOneUpdate (version : DataVersion) (u : JVal) :
    Except String VersionedLCUpdate :=
  match version with
  | .phase0 => .error ("unsupported version " ++ DataVersion.toStr .phase0)
  | .altair => (altairMod.decodeLightClientUpdate u).map
      fun r => { Version := .altair, Altair := some r }
  | .bellatrix => (altairMod.decodeLightClientUpdate u).map
      fun r => { Version := .bellatrix, Bellatrix := some r }
  | .capella => (capellaMod.decodeLightClientUpdate u).map
      fun r => { Version := .capella, Capella := some r }
  | .deneb => (denebMod.decodeLightClientUpdate u).map
      fun r => { Version := .deneb, Deneb := some r }

/-- The element loop of `Service.lightClientUpdatesFromJSON`: elements in
order, a failure on any element fails the whole call. -/
def decodeUpdatesLoop (version : DataVersion) :
    List JVal → Except String (List VersionedLCUpdate)
  | [] => .ok []
  | u :: rest =>
    match decodeOneUpdate version u with
    | .error e => .error e
    | .ok d => (decodeUpdatesLoop version rest).map fun ds => d :: ds

/-- `Service.lightClientUpdatesFromJSON` (lines 273-340): the body is decoded
as a JSON object, the `data` member as a list of raw elements; each element
goes through the per-version switch.  Note the version check happens inside
the element loop only. -/
def lightClientUpdatesFromJSON (version : DataVersion) (body : JVal) :
    Except String (ApiResponse (List VersionedLCUpdate)) :=
  let md : Metadata := [("version", .str version.runeStr)]
  match body with
  | .null => .ok { Data := [], Metadata := md }
  | .obj kvs =>
    match lastVal "data" kvs with
    | none => .ok { Data := [], Metadata := md }
    | some .null => .ok { Data := [], Metadata := md }
    | some (.arr us) => (decodeUpdatesLoop version us).map
        fun ds => { Data := ds, Metadata := md }
    | some w =>
      .error ("failed to parse JSON: " ++ cannotUnmarshalValue w.typeName "[]json.RawMessage")
  | v =>
    .error ("failed to parse JSON: " ++
      cannotUnmarshalValue v.typeName "map[string]json.RawMessage")

/-- `Service.LightClientUpdates` content-type dispatch (lines 260-265): only
the JSON content type is handled. -/
def serviceLightClientUpdates (resp : HttpResponse) :
    Except String (ApiResponse (List VersionedLCUpdate)) :=
  match resp.contentType with
  | .json => lightClientUpdatesFromJSON resp.consensusVersion resp.bodyJson
  | ct => .error ("unhandled content type " ++ ct.toStr)

/-- `versionedLCFinalityUpdateFromJSON` (lines 417-445). -/
def versionedLCFinalityUpdateFromJSON (version : DataVersion) (data : JVal) :
    Except String (VersionedLCFinalityUpdate × Metadata) :=
  match version with
  | .phase0 => .error ("unsupported version " ++ DataVersion.toStr .phase0)
  | .altair => (decodeJSONResponse altairMod.decodeLightClientFinalityUpdate data).map
      fun r => ({ Version := .altair, Altair := some r.1 }, r.2)
  | .bellatrix => (decodeJSONResponse altairMod.decodeLightClientFinalityUpdate data).map
      fun r => ({ Version := .bellatrix, Bellatrix := some r.1 }, r.2)
  | .capella => (decodeJSONResponse capellaMod.decodeLightClientFinalityUpdate data).map
      fun r => ({ Version := .capella, Capella := some r.1 }, r.2)
  | .deneb => (decodeJSONResponse denebMod.decodeLightClientFinalityUpdate data).map
      fun r => ({ Version := .deneb, Deneb := some r.1 }, r.2)

/-- `Service.lightClientFinalityUpdateFromSSZ` (lines 365-400), with the
per-fork `UnmarshalSSZ` decoders as arguments. -/
def lightClientFinalityUpdateFromSSZ
    (decA : List Nat → Except String (LCFinalityUpdateRec altair.LightClientHeader))
    (decC : List Nat → Except String (LCFinalityUpdateRec capella.LightClientHeader))
    (decD : List Nat → Except String (LCFinalityUpdateRec deneb.LightClientHeader))
    (version : DataVersion) (body : List Nat) (headersMeta : Metadata) :
    Except String (ApiResponse VersionedLCFinalityUpdate) :=
  let core : Except String VersionedLCFinalityUpdate :=
    match version with
    | .phase0 => .error ("unsupported version " ++ DataVersion.toStr .phase0)
    | .altair => (decA body).map fun r => { Version := .altair, Altair := some r }
    | .bellatrix => (decA body).map fun r => { Version := .bellatrix, Bellatrix := some r }
    | .capella => (decC body).map fun r => { Version := .capella, Capella := some r }
    | .deneb => (decD body).map fun r => { Version := .deneb, Deneb := some r }
  match core with
  | .error e =>
    .error ("failed to decode " ++ version.toStr ++ " light client optimistic update: " ++ e)
  | .ok d => .ok { Data := d, Metadata := headersMeta }

/-- `Service.lightClientFinalityUpdateFromJSON` (lines 402-415). -/
def lightClientFinalityUpdateFromJSON (version : DataVersion) (body : JVal) :
    Except String (ApiResponse VersionedLCFinalityUpdate) :=
  (versionedLCFinalityUpdateFromJSON version body).map
    fun r => { Data := r.1, Metadata := r.2 }

/-- `Service.LightClientFinalityUpdate` content-type dispatch (lines 355-362). -/
def serviceLightClientFinalityUpdate
    (decA : List Nat → Except String (LCFinalityUpdateRec altair.LightClientHeader))
    (decC : List Nat → Except String (LCFinalityUpdateRec capella.LightClientHeader))
    (decD : List Nat → Except String (LCFinalityUpdateRec deneb.LightClientHeader))
    (resp : HttpResponse) : Except String (ApiResponse VersionedLCFinalityUpdate) :=
  match resp.contentType with
  | .ssz => lightClientFinalityUpdateFromSSZ decA decC decD resp.consensusVersion
      resp.body resp.headersMeta
  | .json => lightClientFinalityUpdateFromJSON resp.consensusVersion resp.bodyJson
  | ct => .error ("unhandled content type " ++ ct.toStr)

/-- `versionedLCOptimisticUpdateFromJSON` (lines 522-550). -/
def versionedLCOptimisticUpdateFromJSON (version : DataVersion) (data : JVal) :
    Except String (VersionedLCOptimisticUpdate × Metadata) :=
  match version with
  | .phase0 => .error ("unsupported version " ++ DataVersion.toStr .phase0)
  | .altair => (decodeJSONResponse altair.decodeLightClientOptimisticUpdate data).map
      fun r => ({ Version := .altair, Altair := some r.1 }, r.2)
  | .bellatrix => (decodeJSONResponse altair.decodeLightClientOptimisticUpdate data).map
      fun r => ({ Version := .bellatrix, Bellatrix := some r.1 }, r.2)
  | .capella => (decodeJSONResponse capellaMod.decodeLightClientOptimisticUpdate data).map
      fun r => ({ Version := .capella, Capella := some r.1 }, r.2)
  | .deneb => (decodeJSONResponse denebMod.decodeLightClientOptimisticUpdate data).map
      fun r => ({ Version := .deneb, Deneb := some r.1 }, r.2)

/-- `Service.lightClientOptimisticUpdateFromSSZ` (lines 470-505). -/
def lightClientOptimisticUpdateFromSSZ
    (decA : List Nat → Except String altair.LightClientOptimisticUpdate)
    (decC : List Nat → Except String (LCOptimisticUpdateRec capella.LightClientHeader))
    (decD : List Nat → Except String (LCOptimisticUpdateRec deneb.LightClientHeader))
    (version : DataVersion) (body : List Nat) (headersMeta : Metadata) :
    Except String (ApiResponse VersionedLCOptimisticUpdate) :=
  let core : Except String VersionedLCOptimisticUpdate :=
    match version with
    | .phase0 => .error ("unsupported version " ++ DataVersion.toStr .phase0)
    | .altair => (decA body).map fun r => { Version := .altair, Altair := some r }
    | .bellatrix => (decA body).map fun r => { Version := .bellatrix, Bellatrix := some r }
    | .capella => (decC body).map fun r => { Version := .capella, Capella := some r }
    | .deneb => (decD body).map fun r => { Version := .deneb, Deneb := some r }
  match core with
  | .error e =>
    .error ("failed to decode " ++ version.toStr ++ " light client optimistic update: " ++ e)
  | .ok d => .ok { Data := d, Metadata := headersMeta }

/-- `Service.lightClientOptimisticUpdateFromJSON` (lines 507-520). -/
def lightClientOptimisticUpdateFromJSON (version : DataVersion) (body : JVal) :
    Except String (ApiResponse VersionedLCOptimisticUpdate) :=
  (versionedLCOptimisticUpdateFromJSON version body).map
    fun r => { Data := r.1, Metadata := r.2 }

/-- `Service.LightClientOptimisticUpdate` content-type dispatch (lines 460-467). -/
def serviceLightClientOptimisticUpdate
    (decA : List Nat → Except String altair.LightClientOptimisticUpdate)
    (decC : List Nat → Except String (LCOptimisticUpdateRec capella.LightClientHeader))
    (decD : List Nat → Except String (LCOptimisticUpdateRec deneb.LightClientHeader))
    (resp : HttpResponse) : Except String (ApiResponse VersionedLCOptimisticUpdate) :=
  match resp.contentType with
  | .ssz => lightClientOptimisticUpdateFromSSZ decA decC decD resp.consensusVersion
      resp.body resp.headersMeta
  | .json => lightClientOptimisticUpdateFromJSON resp.consensusVersion resp.bodyJson
  | ct => .error ("unhandled content type " ++ ct.toStr)

/-! ## The four operations from the transport result onward

`s.get` yields either a transport error, no response body, or a response;
each operation maps "no body" to a nil result with a nil error before any
decoding (lines 163-165, 256-258, 351-353, 456-458). -/

def lightClientBootstrapCall
    (decA : List Nat → Except String (LCBootstrapRec altair.LightClientHeader))
    (decC : List Nat → Except String capella.LightClientBootstrap)
    (decD : List Nat → Except String (LCBootstrapRec deneb.LightClientHeader))
    (getRes : Except String (Option HttpResponse)) :
    Except String (Option (ApiResponse VersionedLCBootstrap)) :=
  match getRes with
  | .error e => .error ("failed to request beacon light client bootstrap: " ++ e)
  | .ok none => .ok none
  | .ok (some resp) => (serviceLightClientBootstrap decA decC decD resp).map some

def lightClientUpdatesCall (getRes : Except String (Option HttpResponse)) :
    Except String (Option (ApiResponse (List VersionedLCUpdate))) :=
  match getRes with
  | .error e => .error ("failed to request beacon light client updates: " ++ e)
  | .ok none => .ok none
  | .ok (some resp) => (serviceLightClientUpdates resp).map some

def lightClientFinalityUpdateCall
    (decA : List Nat → Except String (LCFinalityUpdateRec altair.LightClientHeader))
    (decC : List Nat → Except String (LCFinalityUpdateRec capella.LightClientHeader))
    (decD : List Nat → Except String (LCFinalityUpdateRec deneb.LightClientHeader))
    (getRes : Except String (Option HttpResponse)) :
    Except String (Option (ApiResponse VersionedLCFinalityUpdate)) :=
  match getRes with
  | .error e => .error ("failed to request beacon light client finality_update: " ++ e)
  | .ok none => .ok none
  | .ok (some resp) => (serviceLightClientFinalityUpdate decA decC decD resp).map some

def lightClientOptimisticUpdateCall
    (decA : List Nat → Except String altair.LightClientOptimisticUpdate)
    (decC : List Nat → Except String (LCOptimisticUpdateRec capella.LightClientHeader))
    (decD : List Nat → Except String (LCOptimisticUpdateRec deneb.LightClientHeader))
    (getRes : Except String (Option HttpResponse)) :
    Except String (Option (ApiResponse VersionedLCOptimisticUpdate)) :=
  match getRes with
  | .error e => .error ("failed to request beacon light client optimistic_update: " ++ e)
  | .ok none => .ok none
  | .ok (some resp) => (serviceLightClientOptimisticUpdate decA decC decD resp).map some

/-! ## The multi-backend dispatcher (src/multi/lightclient.go)

`doCall` picks a backend and runs the closure; its outcome — an error, a nil
result ("no data available"), or data — is what each wrapper post-processes.
The wrappers return the typed result unchanged and map a nil result to
`(nil, nil)` (lines 32-38, 50-56, 68-74, 86-92). -/

def multiLightClientBootstrap {α : Type} (res : Except String (Option α)) :
    Except String (Option α) :=
  match res with
  | .error e => .error e
  | .ok none => .ok none
  | .ok (some x) => .ok (some x)

def multiLightClientUpdates {α : Type} (res : Except String (Option α)) :
    Except String (Option α) :=
  match res with
  | .error e => .error e
  | .ok none => .ok none
  | .ok (some x) => .ok (some x)

def multiLightClientFinalityUpdate {α : Type} (res : Except String (Option α)) :
    Except String (Option α) :=
  match res with
  | .error e => .error e
  | .ok none => .ok none
  | .ok (some x) => .ok (some x)

def multiLightClientOptimisticUpdate {α : Type} (res : Except String (Option α)) :
    Except String (Option α) :=
  match res with
  | .error e => .error e
  | .ok none => .ok none
  | .ok (some x) => .ok (some x)

/-! ## Predicates used by the theorem statements -/

/-- One error message contains another as a substring. -/
def strContains (hay needle : String) : Prop := needle.data <:+: hay.data

instance (hay needle : String) : Decidable (strContains hay needle) :=
  inferInstanceAs (Decidable (needle.data <:+: hay.data))

def isObjB : JVal → Bool
  | .obj _ => true
  | _ => false

def hdrOk : Option BeaconBlockHeader → Bool
  | some h => isObjB h.val
  | none => false

def comOk : Option SyncCommittee → Bool
  | some c => isObjB c.val
  | none => false

def aggOk : Option SyncAggregate → Bool
  | some a => isObjB a.val
  | none => false

/-- A well-formed branch element in memory: exactly 32 bytes. -/
def elemBytesOk (bs : List Nat) : Bool :=
  bs.length == 32 && bs.all fun b => decide (b < 256)

/-- The bytes `hex.DecodeString(strings.TrimPrefix(s, "0x"))` yields. -/
def decElem (s : String) : List Nat := (goHexDecodeCore (trim0x s).data).1

/-- A wire branch element the guarded loops accept. -/
def elemOkGuard (s : String) : Bool :=
  !(s == "") && (goHexDecodeCore (trim0x s).data).2.isNone &&
    ((goHexDecodeCore (trim0x s).data).1.length == 32)

/-- The error a guarded loop reports for a failing element at index `i`. -/
def elemErrMsgGuard (field : String) (i : Nat) (s : String) : String :=
  if s = "" then field ++ "[" ++ toString i ++ "] missing"
  else
    match (goHexDecodeCore (trim0x s).data).2 with
    | some e => "invalid value for " ++ field ++ "[" ++ toString i ++ "]: " ++ e
    | none => "invalid length of " ++ field ++ "[" ++ toString i ++ "]"

/-- A wire branch element the unguarded `[][32]byte` loops accept. -/
def elemOk32 (s : String) : Bool :=
  (goHexDecodeCore (trim0x s).data).2.isNone &&
    ((goHexDecodeCore (trim0x s).data).1.length == 32)

/-- The error an unguarded loop reports for a failing element at index `i`. -/
def elemErrMsg32 (field : String) (i : Nat) (s : String) : String :=
  match (goHexDecodeCore (trim0x s).data).2 with
  | some e => "invalid value for " ++ field ++ "[" ++ toString i ++ "]: " ++ e
  | none => "invalid length of " ++ field ++ "[" ++ toString i ++ "]"

/-- Well-formed in-memory `v1.LightClientUpdate`: every substructure present
(headers and committees carrying JSON objects), both branches non-empty with
32-byte elements, and the slot within 64 bits.  The element count is not
constrained: the codec never checks it. -/
def v1.LightClientUpdate.wf (l : v1.LightClientUpdate) : Bool :=
  hdrOk l.attestedHeader && comOk l.nextSyncCommittee &&
    !l.nextSyncCommitteeBranch.isEmpty && l.nextSyncCommitteeBranch.all elemBytesOk &&
    hdrOk l.finalizedHeader &&
    !l.finalityBranch.isEmpty && l.finalityBranch.all elemBytesOk &&
    aggOk l.syncAggregate && decide (l.signatureSlot < 2 ^ 64)

/-- Well-formed in-memory `v1.LightClientBootstrap`. -/
def v1.LightClientBootstrap.wf (l : v1.LightClientBootstrap) : Bool :=
  hdrOk l.header && comOk l.currentSyncCommittee &&
    !l.currentSyncCommitteeBranch.isEmpty &&
    l.currentSyncCommitteeBranch.all elemBytesOk

/-- The envelope invariant of a finality-update envelope: exactly the slot
matching the fork tag is populated. -/
def VersionedLCFinalityUpdate.slotsOk (u : VersionedLCFinalityUpdate) : Bool :=
  match u.Version with
  | .phase0 => false
  | .altair => u.Altair.isSome && u.Bellatrix.isNone && u.Capella.isNone && u.Deneb.isNone
  | .bellatrix => u.Altair.isNone && u.Bellatrix.isSome && u.Capella.isNone && u.Deneb.isNone
  | .capella => u.Altair.isNone && u.Bellatrix.isNone && u.Capella.isSome && u.Deneb.isNone
  | .deneb => u.Altair.isNone && u.Bellatrix.isNone && u.Capella.isNone && u.Deneb.isSome

/-! ## Concrete wire values used by counterexamples and witnesses -/

/-- An opaque substructure body (any JSON object decodes). -/
def hObj : JVal := .obj []

/-- The all-zero 32-byte value. -/
def b32z : List Nat := List.replicate 32 0

/-- Its canonical wire form, `0x` plus 64 zero digits. -/
def b32s : String := hexEncodeBytes b32z

/-- A branch of `k` canonical 32-byte elements. -/
def jb (k : Nat) : JVal := .arr (List.replicate k (.str b32s))

/-- A `v1.LightClientUpdate` wire object with the given branch and slot
members, everything else valid. -/
def updWire (nsc fin slot : JVal) : JVal :=
  .obj [("attested_header", hObj), ("next_sync_committee", hObj),
        ("next_sync_committee_branch", nsc), ("finalized_header", hObj),
        ("finality_branch", fin), ("sync_aggregate", hObj),
        ("signature_slot", slot)]

/-- A `v1.LightClientBootstrap` wire object with the given branch member. -/
def bootWire (br : JVal) : JVal :=
  .obj [("header", hObj), ("current_sync_committee", hObj),
        ("current_sync_committee_branch", br)]

/-- An `altair.LightClientOptimisticUpdate` wire object with the given slot. -/
def optWire (slot : JVal) : JVal :=
  .obj [("attested_header", .obj [("beacon", hObj)]),
        ("sync_aggregate", hObj), ("signature_slot", slot)]

/-- A `capella.LightClientHeader` wire object with the given branch member. -/
def capHdrWire (eb : JVal) : JVal :=
  .obj [("beacon", hObj), ("execution", hObj), ("execution_branch", eb)]

/-- An altair-shape update wire object with the given finality branch. -/
def updWireA (fin : JVal) : JVal :=
  .obj [("attested_header", .obj [("beacon", hObj)]),
        ("next_sync_committee", hObj), ("next_sync_committee_branch", jb 5),
        ("finalized_header", .obj [("beacon", hObj)]), ("finality_branch", fin),
        ("sync_aggregate", hObj), ("signature_slot", .str "1")]

/-- An altair-shape finality-update wire object. -/
def finWireA : JVal :=
  .obj [("attested_header", .obj [("beacon", hObj)]),
        ("finalized_header", .obj [("beacon", hObj)]), ("finality_branch", jb 6),
        ("sync_aggregate", hObj), ("signature_slot", .str "1")]

/-- The decoded altair header over `hObj`. -/
def aHdr : altair.LightClientHeader := ⟨some ⟨hObj⟩⟩

/-- The altair-shape update record `updWireA (jb k)` decodes to. -/
def updRecA (k : Nat) : LCUpdateRec altair.LightClientHeader :=
  ⟨some aHdr, some ⟨hObj⟩, List.replicate 5 b32z, some aHdr,
    List.replicate k b32z, some ⟨hObj⟩, 1⟩

/-- The versioned envelope for `updRecA k` under the altair tag. -/
def c2env (k : Nat) : VersionedLCUpdate := { Version := .altair, Altair := some (updRecA k) }

/-- The altair-shape finality-update record `finWireA` decodes to. -/
def finRecA : LCFinalityUpdateRec altair.LightClientHeader :=
  ⟨some aHdr, some aHdr, List.replicate 6 b32z, some ⟨hObj⟩, 1⟩

/-- The updates-response body of the C2 scenario: three elements, the second
with a five-element finality branch. -/
def c2body : JVal :=
  .obj [("version", .str "altair"),
        ("data", .arr [updWireA (jb 6), updWireA (jb 5), updWireA (jb 6)])]

/-- The slot parse error the codecs report for the decimal string `-1`. -/
def slotErrNeg1 : String :=
  "invalid value for slot: strconv.ParseUint: parsing \"-1\": invalid syntax"

/-! ## Helper lemmas: hex and decimal round trips -/

theorem fromHexChar_lowHexChar : ∀ n, n < 16 → fromHexChar (lowHexChar n) = some n := by
  decide

theorem goHexDecodeCore_encode :
    ∀ bs : List Nat, (∀ b ∈ bs, b < 256) →
      goHexDecodeCore ((bs.map hexPair).flatten) = (bs, none) := by
  intro bs
  induction bs with
  | nil => intro _; rfl
  | cons b bs ih =>
    intro hb
    have hblt : b < 256 := hb b (by simp)
    have h1 : b % 256 = b := Nat.mod_eq_of_lt hblt
    have h2 : b / 16 < 16 := by omega
    have h3 : b % 16 < 16 := Nat.mod_lt _ (by omega)
    simp only [List.map_cons, List.flatten_cons, hexPair, h1, List.cons_append,
      List.nil_append]
    simp only [goHexDecodeCore, fromHexChar_lowHexChar _ h2, fromHexChar_lowHexChar _ h3,
      ih fun x hx => hb x (by simp [hx])]
    have : 16 * (b / 16) + b % 16 = b := by omega
    simp [this]

theorem trim0x_hexEncodeBytes (bs : List Nat) :
    (trim0x (hexEncodeBytes bs)).data = (bs.map hexPair).flatten := rfl

theorem hexEncodeBytes_ne_empty (bs : List Nat) : hexEncodeBytes bs ≠ "" := by
  intro h
  have := congrArg String.data h
  simp [hexEncodeBytes] at this

theorem decElem_encode (bs : List Nat) (h : ∀ b ∈ bs, b < 256) :
    decElem (hexEncodeBytes bs) = bs := by
  simp [decElem, trim0x_hexEncodeBytes, goHexDecodeCore_encode bs h]

theorem decode2_encode (bs : List Nat) (h : ∀ b ∈ bs, b < 256) :
    (goHexDecodeCore (trim0x (hexEncodeBytes bs)).data).2 = none := by
  simp [trim0x_hexEncodeBytes, goHexDecodeCore_encode bs h]

theorem decDigitsVal_append (l : List Char) (c : Char) :
    decDigitsVal (l ++ [c]) = 10 * decDigitsVal l + (c.toNat - 48) := by
  simp [decDigitsVal, List.foldl_append]

theorem decDigitChar_isDigit : ∀ m, m < 10 → isDecDigit (decDigitChar m) = true := by
  decide

theorem decDigitChar_toNat : ∀ m, m < 10 → (decDigitChar m).toNat - 48 = m := by
  decide

theorem decChars_spec :
    ∀ n : Nat, (decChars n).all isDecDigit = true ∧ decChars n ≠ [] ∧
      decDigitsVal (decChars n) = n := by
  intro n
  induction n using Nat.strong_induction_on with
  | _ n ih =>
    by_cases h : n < 10
    · rw [decChars]
      simp only [h, dite_true]
      refine ⟨?_, by simp, ?_⟩
      · simp [decDigitChar_isDigit n h]
      · simp [decDigitsVal, decDigitChar_toNat n h]
    · rw [decChars]
      simp only [h, dite_false]
      have hd : n / 10 < n := Nat.div_lt_self (by omega) (by omega)
      obtain ⟨ha, hne, hv⟩ := ih (n / 10) hd
      have hm : n % 10 < 10 := Nat.mod_lt _ (by omega)
      refine ⟨?_, by simp, ?_⟩
      · simp [List.all_append, ha, decDigitChar_isDigit _ hm]
      · rw [decDigitsVal_append, hv, decDigitChar_toNat _ hm]
        omega

theorem goParseUint_goUintString (n : Nat) (h : n < 2 ^ 64) :
    goParseUint (goUintString n) = .ok n := by
  obtain ⟨ha, hne, hv⟩ := decChars_spec n
  have hdata : (goUintString n).data = decChars n := rfl
  rw [goParseUint, hdata]
  rw [if_neg, if_pos]
  · rw [hv]
  · rw [hv]; exact h
  · push_neg
    constructor
    · simpa [List.isEmpty_iff] using hne
    · exact ha

theorem goUintString_ne_empty (n : Nat) : goUintString n ≠ "" := by
  obtain ⟨-, hne, -⟩ := decChars_spec n
  intro h
  exact hne (congrArg String.data h)

theorem list_set_append {α : Type} :
    ∀ (pre : List α) (a : α) (t : List α) (v : α),
      (pre ++ a :: t).set pre.length v = pre ++ v :: t := by
  intro pre
  induction pre with
  | nil => intro a t v; rfl
  | cons p pre ih => intro a t v; simp [List.set, ih]

/-! ## Helper lemmas: the branch-decoding loops -/

theorem branchLoopGuard_encode (f : String) :
    ∀ (bss pre fill : List (List Nat)),
      fill.length = bss.length →
      (∀ bs ∈ bss, bs.length = 32 ∧ ∀ b ∈ bs, b < 256) →
      branchLoopGuard f (bss.map hexEncodeBytes) pre.length (pre ++ fill) =
        (pre ++ bss, none) := by
  intro bss
  induction bss with
  | nil =>
    intro pre fill hl _
    have : fill = [] := List.length_eq_zero.mp (by simpa using hl)
    subst this
    simp [branchLoopGuard]
  | cons bs bss ih =>
    intro pre fill hl hok
    cases fill with
    | nil => simp at hl
    | cons f0 fill =>
      obtain ⟨h32, hbyte⟩ := hok bs (by simp)
      have hdec : goHexDecodeCore (trim0x (hexEncodeBytes bs)).data = (bs, none) := by
        rw [trim0x_hexEncodeBytes]; exact goHexDecodeCore_encode bs hbyte
      simp only [List.map_cons, branchLoopGuard]
      rw [if_neg (hexEncodeBytes_ne_empty bs)]
      simp only [hdec, list_set_append, h32]
      rw [if_neg (by simp)]
      have happ : pre ++ bs :: fill = (pre ++ [bs]) ++ fill := by simp
      have hlen : pre.length + 1 = (pre ++ [bs]).length := by simp
      rw [happ, hlen, ih (pre ++ [bs]) fill (by simpa using hl)
        (fun x hx => hok x (by simp [hx]))]
      simp

theorem branchLoop32_encode (f : String) :
    ∀ (bss pre fill : List (List Nat)),
      fill.length = bss.length →
      (∀ bs ∈ bss, bs.length = 32 ∧ ∀ b ∈ bs, b < 256) →
      branchLoop32 f (bss.map hexEncodeBytes) pre.length (pre ++ fill) =
        (pre ++ bss, none) := by
  intro bss
  induction bss with
  | nil =>
    intro pre fill hl _
    have : fill = [] := List.length_eq_zero.mp (by simpa using hl)
    subst this
    simp [branchLoop32]
  | cons bs bss ih =>
    intro pre fill hl hok
    cases fill with
    | nil => simp at hl
    | cons f0 fill =>
      obtain ⟨h32, hbyte⟩ := hok bs (by simp)
      have hdec : goHexDecodeCore (trim0x (hexEncodeBytes bs)).data = (bs, none) := by
        rw [trim0x_hexEncodeBytes]; exact goHexDecodeCore_encode bs hbyte
      simp only [List.map_cons, branchLoop32, hdec, h32]
      rw [if_neg (by simp)]
      rw [list_set_append]
      have happ : pre ++ bs :: fill = (pre ++ [bs]) ++ fill := by simp
      have hlen : pre.length + 1 = (pre ++ [bs]).length := by simp
      rw [happ, hlen, ih (pre ++ [bs]) fill (by simpa using hl)
        (fun x hx => hok x (by simp [hx]))]
      simp

theorem branchLoopGuard_ok (f : String) :
    ∀ (ss : List String) (pre fill out : List (List Nat)),
      fill.length = ss.length →
      branchLoopGuard f ss pre.length (pre ++ fill) = (out, none) →
      out = pre ++ ss.map decElem ∧ ∀ s ∈ ss, elemOkGuard s = true := by
  intro ss
  induction ss with
  | nil =>
    intro pre fill out hl h
    have : fill = [] := List.length_eq_zero.mp (by simpa using hl)
    subst this
    simp only [branchLoopGuard, List.append_nil, Prod.mk.injEq] at h
    exact ⟨by simp [← h.1], by simp⟩
  | cons s ss ih =>
    intro pre fill out hl h
    cases fill with
    | nil => simp at hl
    | cons f0 fill =>
      by_cases hs : s = ""
      · simp [branchLoopGuard, hs] at h
      · rcases hgd : goHexDecodeCore (trim0x s).data with ⟨bs0, e0⟩
        cases e0 with
        | some e => simp [branchLoopGuard, if_neg hs, hgd] at h
        | none =>
          simp only [branchLoopGuard, if_neg hs, hgd] at h
          by_cases h32 : bs0.length = 32
          · rw [if_neg (by simp [h32])] at h
            rw [list_set_append] at h
            have happ : pre ++ bs0 :: fill = (pre ++ [bs0]) ++ fill := by simp
            have hlen : pre.length + 1 = (pre ++ [bs0]).length := by simp
            rw [happ, hlen] at h
            obtain ⟨hout, hall⟩ := ih (pre ++ [bs0]) fill out (by simpa using hl) h
            have hde : decElem s = bs0 := by simp [decElem, hgd]
            refine ⟨by simp [hout, hde], ?_⟩
            intro x hx
            rcases List.mem_cons.mp hx with rfl | hx2
            · simp [elemOkGuard, hs, hgd, h32]
            · exact hall x hx2
          · rw [if_pos (by simp [h32])] at h
            simp at h

theorem branchLoop32_ok (f : String) :
    ∀ (ss : List String) (pre fill out : List (List Nat)),
      fill.length = ss.length →
      branchLoop32 f ss pre.length (pre ++ fill) = (out, none) →
      out = pre ++ ss.map decElem ∧ ∀ s ∈ ss, elemOk32 s = true := by
  intro ss
  induction ss with
  | nil =>
    intro pre fill out hl h
    have : fill = [] := List.length_eq_zero.mp (by simpa using hl)
    subst this
    simp only [branchLoop32, List.append_nil, Prod.mk.injEq] at h
    exact ⟨by simp [← h.1], by simp⟩
  | cons s ss ih =>
    intro pre fill out hl h
    cases fill with
    | nil => simp at hl
    | cons f0 fill =>
      rcases hgd : goHexDecodeCore (trim0x s).data with ⟨bs0, e0⟩
      cases e0 with
      | some e => simp [branchLoop32, hgd] at h
      | none =>
        simp only [branchLoop32, hgd] at h
        by_cases h32 : bs0.length = 32
        · rw [if_neg (by simp [h32])] at h
          rw [list_set_append] at h
          have happ : pre ++ bs0 :: fill = (pre ++ [bs0]) ++ fill := by simp
          have hlen : pre.length + 1 = (pre ++ [bs0]).length := by simp
          rw [happ, hlen] at h
          obtain ⟨hout, hall⟩ := ih (pre ++ [bs0]) fill out (by simpa using hl) h
          have hde : decElem s = bs0 := by simp [decElem, hgd]
          refine ⟨by simp [hout, hde], ?_⟩
          intro x hx
          rcases List.mem_cons.mp hx with rfl | hx2
          · simp [elemOk32, hgd, h32]
          · exact hall x hx2
        · rw [if_pos (by simp [h32])] at h
          simp at h

theorem branchLoopGuard_err (f : String) :
    ∀ (good : List String) (s : String) (rest : List String) (i : Nat)
      (acc : List (List Nat)),
      (∀ g ∈ good, elemOkGuard g = true) → elemOkGuard s = false →
      (branchLoopGuard f (good ++ s :: rest) i acc).2 =
        some (elemErrMsgGuard f (i + good.length) s) := by
  intro good
  induction good with
  | nil =>
    intro s rest i acc _ hbad
    by_cases hs : s = ""
    · simp [branchLoopGuard, hs, elemErrMsgGuard]
    · rcases hgd : goHexDecodeCore (trim0x s).data with ⟨bs0, e0⟩
      cases e0 with
      | some e => simp [branchLoopGuard, hs, hgd, elemErrMsgGuard]
      | none =>
        have h32 : ¬ bs0.length = 32 := by
          intro hc
          simp [elemOkGuard, hs, hgd, hc] at hbad
        simp [branchLoopGuard, hs, hgd, elemErrMsgGuard, h32]
  | cons g good ih =>
    intro s rest i acc hok hbad
    have hg := hok g (by simp)
    have hgne : ¬ g = "" := by
      intro hc; simp [elemOkGuard, hc] at hg
    rcases hgd : goHexDecodeCore (trim0x g).data with ⟨bs0, e0⟩
    cases e0 with
    | some e => simp [elemOkGuard, hgne, hgd] at hg
    | none =>
      have h32 : bs0.length = 32 := by
        by_contra hc
        simp [elemOkGuard, hgne, hgd, hc] at hg
      simp only [List.cons_append, branchLoopGuard, if_neg hgne, hgd]
      rw [if_neg (by simp [h32])]
      simp only [List.append_eq]
      rw [ih s rest (i + 1) _ (fun x hx => hok x (by simp [hx])) hbad]
      have : i + 1 + good.length = i + (good.length + 1) := by omega
      simp [this]

theorem branchLoop32_err (f : String) :
    ∀ (good : List String) (s : String) (rest : List String) (i : Nat)
      (acc : List (List Nat)),
      (∀ g ∈ good, elemOk32 g = true) → elemOk32 s = false →
      (branchLoop32 f (good ++ s :: rest) i acc).2 =
        some (elemErrMsg32 f (i + good.length) s) := by
  intro good
  induction good with
  | nil =>
    intro s rest i acc _ hbad
    rcases hgd : goHexDecodeCore (trim0x s).data with ⟨bs0, e0⟩
    cases e0 with
    | some e => simp [branchLoop32, hgd, elemErrMsg32]
    | none =>
      have h32 : ¬ bs0.length = 32 := by
        intro hc
        simp [elemOk32, hgd, hc] at hbad
      simp [branchLoop32, hgd, elemErrMsg32, h32]
  | cons g good ih =>
    intro s rest i acc hok hbad
    have hg := hok g (by simp)
    rcases hgd : goHexDecodeCore (trim0x g).data with ⟨bs0, e0⟩
    cases e0 with
    | some e => simp [elemOk32, hgd] at hg
    | none =>
      have h32 : bs0.length = 32 := by
        by_contra hc
        simp [elemOk32, hgd, hc] at hg
      simp only [List.cons_append, branchLoop32, hgd]
      rw [if_neg (by simp [h32])]
      simp only [List.append_eq]
      rw [ih s rest (i + 1) _ (fun x hx => hok x (by simp [hx])) hbad]
      have : i + 1 + good.length = i + (good.length + 1) := by omega
      simp [this]

/-! ## Claim C9 -/

/-- C9: "no data available" is never converted into an error — for each of
the four operations, an absent response body makes the HTTP-layer operation
return a nil result with a nil error, and each multi-backend wrapper maps a
nil result from the underlying call to a nil result with a nil error. -/
theorem c9_no_data_is_not_an_error :
    (∀ decA decC decD, lightClientBootstrapCall decA decC decD (.ok none) = .ok none) ∧
    (lightClientUpdatesCall (.ok none) = .ok none) ∧
    (∀ decA decC decD, lightClientFinalityUpdateCall decA decC decD (.ok none) = .ok none) ∧
    (∀ decA decC decD, lightClientOptimisticUpdateCall decA decC decD (.ok none) = .ok none) ∧
    (∀ α : Type, multiLightClientBootstrap (α := α) (.ok none) = .ok none) ∧
    (∀ α : Type, multiLightClientUpdates (α := α) (.ok none) = .ok none) ∧
    (∀ α : Type, multiLightClientFinalityUpdate (α := α) (.ok none) = .ok none) ∧
    (∀ α : Type, multiLightClientOptimisticUpdate (α := α) (.ok none) = .ok none) :=
  ⟨fun _ _ _ => rfl, rfl, fun _ _ _ => rfl, fun _ _ _ => rfl,
    fun _ => rfl, fun _ => rfl, fun _ => rfl, fun _ => rfl⟩

/-! ## Claim C8 -/

/-- C8 counterexample: the claim says the binary (SSZ) indicator invokes the
per-fork binary codec uniformly for all four operations including
`GetUpdates`; in fact the `GetUpdates` dispatch has no SSZ branch, so an SSZ
response fails with the unhandled-encoding error instead of being decoded. -/
theorem c8_updates_ssz_counterexample :
    serviceLightClientUpdates
      { contentType := .ssz, consensusVersion := .capella, body := [],
        bodyJson := .null, headersMeta := [] } =
      .error "unhandled content type application/octet-stream" ∧
    ∀ r : ApiResponse (List VersionedLCUpdate),
      serviceLightClientUpdates
        { contentType := .ssz, consensusVersion := .capella, body := [],
          bodyJson := .null, headersMeta := [] } ≠ .ok r :=
  ⟨rfl, fun _ h => nomatch h⟩

/-- C8 amended: for bootstrap, finality update and optimistic update the
content negotiation branches exactly as claimed (SSZ → binary codec, JSON →
textual codec, anything else → unhandled-encoding error); `GetUpdates`
handles only the JSON indicator and reports every other indicator,
including SSZ, as an unhandled content type. -/
theorem c8_dispatch_amended :
    (∀ decA decC decD (resp : HttpResponse), resp.contentType = .ssz →
      serviceLightClientBootstrap decA decC decD resp =
        lightClientBootstrapFromSSZ decA decC decD resp.consensusVersion resp.body
          resp.headersMeta) ∧
    (∀ decA decC decD (resp : HttpResponse), resp.contentType = .json →
      serviceLightClientBootstrap decA decC decD resp =
        lightClientBootstrapFromJSON resp.consensusVersion resp.bodyJson) ∧
    (∀ decA decC decD (resp : HttpResponse) (s : String), resp.contentType = .other s →
      serviceLightClientBootstrap decA decC decD resp =
        .error ("unhandled content type " ++ s)) ∧
    (∀ decA decC decD (resp : HttpResponse), resp.contentType = .ssz →
      serviceLightClientFinalityUpdate decA decC decD resp =
        lightClientFinalityUpdateFromSSZ decA decC decD resp.consensusVersion resp.body
          resp.headersMeta) ∧
    (∀ decA decC decD (resp : HttpResponse), resp.contentType = .json →
      serviceLightClientFinalityUpdate decA decC decD resp =
        lightClientFinalityUpdateFromJSON resp.consensusVersion resp.bodyJson) ∧
    (∀ decA decC decD (resp : HttpResponse) (s : String), resp.contentType = .other s →
      serviceLightClientFinalityUpdate decA decC decD resp =
        .error ("unhandled content type " ++ s)) ∧
    (∀ decA decC decD (resp : HttpResponse), resp.contentType = .ssz →
      serviceLightClientOptimisticUpdate decA decC decD resp =
        lightClientOptimisticUpdateFromSSZ decA decC decD resp.consensusVersion resp.body
          resp.headersMeta) ∧
    (∀ decA decC decD (resp : HttpResponse), resp.contentType = .json →
      serviceLightClientOptimisticUpdate decA decC decD resp =
        lightClientOptimisticUpdateFromJSON resp.consensusVersion resp.bodyJson) ∧
    (∀ decA decC decD (resp : HttpResponse) (s : String), resp.contentType = .other s →
      serviceLightClientOptimisticUpdate decA decC decD resp =
        .error ("unhandled content type " ++ s)) ∧
    (∀ resp : HttpResponse, resp.contentType = .json →
      serviceLightClientUpdates resp =
        lightClientUpdatesFromJSON resp.consensusVersion resp.bodyJson) ∧
    (∀ resp : HttpResponse, resp.contentType = .ssz →
      serviceLightClientUpdates resp =
        .error "unhandled content type application/octet-stream") ∧
    (∀ (resp : HttpResponse) (s : String), resp.contentType = .other s →
      serviceLightClientUpdates resp = .error ("unhandled content type " ++ s)) := by
  refine ⟨?_, ?_, ?_, ?_, ?_, ?_, ?_, ?_, ?_, ?_, ?_, ?_⟩ <;>
    first
    | (intro decA decC decD resp h
       simp [serviceLightClientBootstrap, serviceLightClientFinalityUpdate,
         serviceLightClientOptimisticUpdate, h, ContentType.toStr])
    | (intro decA decC decD resp s h
       simp [serviceLightClientBootstrap, serviceLightClientFinalityUpdate,
         serviceLightClientOptimisticUpdate, h, ContentType.toStr])
    | (intro resp h
       simp [serviceLightClientUpdates, h, ContentType.toStr])
    | (intro resp s h
       simp [serviceLightClientUpdates, h, ContentType.toStr])

/-- C8 witness: the amended dispatch behaviour at a concrete response. -/
theorem c8_dispatch_amended_witness :
    serviceLightClientUpdates
      { contentType := .ssz, consensusVersion := .deneb, body := [],
        bodyJson := .null, headersMeta := [] } =
      .error "unhandled content type application/octet-stream" :=
  c8_dispatch_amended.2.2.2.2.2.2.2.2.2.2.1
    { contentType := .ssz, consensusVersion := .deneb, body := [],
      bodyJson := .null, headersMeta := [] } rfl

/-! ## Claim C3 -/

/-- C3 counterexample: the claim says a phase0-tagged response always fails
for every operation "including an updates response whose data list is
empty"; in fact the updates decoder checks the version only inside the
per-element loop, so a phase0-tagged updates response with an empty `data`
list succeeds with an empty result. -/
theorem c3_phase0_empty_updates_counterexample :
    lightClientUpdatesFromJSON .phase0
      (.obj [("version", .str "phase0"), ("data", .arr [])]) =
      .ok { Data := [], Metadata := [("version", .str (DataVersion.runeStr .phase0))] } ∧
    ∀ e, lightClientUpdatesFromJSON .phase0
      (.obj [("version", .str "phase0"), ("data", .arr [])]) ≠ .error e :=
  ⟨rfl, fun _ h => nomatch h⟩

/-- C3 amended: a phase0 fork tag always fails with the unsupported-version
error for bootstrap, finality update and optimistic update, in both the SSZ
and JSON codecs; for `GetUpdates` (JSON only) the phase0 rejection fires per
element, so it fails exactly when the `data` list is non-empty, and any
phase0 response that does succeed carries an empty list. -/
theorem c3_phase0_gating_amended :
    (∀ decA decC decD body meta, lightClientBootstrapFromSSZ decA decC decD .phase0 body meta =
      .error "failed to decode phase0 light client optimistic update: unsupported version phase0") ∧
    (∀ body, lightClientBootstrapFromJSON .phase0 body = .error "unsupported version phase0") ∧
    (∀ decA decC decD body meta,
      lightClientFinalityUpdateFromSSZ decA decC decD .phase0 body meta =
      .error "failed to decode phase0 light client optimistic update: unsupported version phase0") ∧
    (∀ body, versionedLCFinalityUpdateFromJSON .phase0 body =
      .error "unsupported version phase0") ∧
    (∀ decA decC decD body meta,
      lightClientOptimisticUpdateFromSSZ decA decC decD .phase0 body meta =
      .error "failed to decode phase0 light client optimistic update: unsupported version phase0") ∧
    (∀ body, versionedLCOptimisticUpdateFromJSON .phase0 body =
      .error "unsupported version phase0") ∧
    (∀ (kvs : List (String × JVal)) (us : List JVal),
      lastVal "data" kvs = some (.arr us) → us ≠ [] →
      lightClientUpdatesFromJSON .phase0 (.obj kvs) =
        .error "unsupported version phase0") ∧
    (∀ body r, lightClientUpdatesFromJSON .phase0 body = .ok r → r.Data = []) := by
  refine ⟨fun _ _ _ _ _ => rfl, fun _ => rfl, fun _ _ _ _ _ => rfl, fun _ => rfl,
    fun _ _ _ _ _ => rfl, fun _ => rfl, ?_, ?_⟩
  · intro kvs us h hne
    cases us with
    | nil => exact absurd rfl hne
    | cons u rest =>
      simp [lightClientUpdatesFromJSON, h, decodeUpdatesLoop, decodeOneUpdate,
        DataVersion.toStr, Except.map]
  · intro body r h
    cases body with
    | null =>
      simp only [lightClientUpdatesFromJSON] at h
      cases h
      rfl
    | obj kvs =>
      simp only [lightClientUpdatesFromJSON] at h
      rcases hd : lastVal "data" kvs with - | v
      · rw [hd] at h
        cases h
        rfl
      · rw [hd] at h
        cases v with
        | null => cases h; rfl
        | arr us =>
          cases us with
          | nil =>
            simp [decodeUpdatesLoop, Except.map] at h
            simp [← h]
          | cons u rest =>
            simp [decodeUpdatesLoop, decodeOneUpdate, Except.map] at h
        | bool b => cases h
        | num n => cases h
        | str s => cases h
        | obj kvs2 => cases h
    | bool b => cases h
    | num n => cases h
    | str s => cases h
    | arr xs => cases h

/-- C3 witness: the amended phase0 gating at concrete inputs. -/
theorem c3_phase0_gating_amended_witness :
    lightClientUpdatesFromJSON .phase0 (.obj [("data", .arr [.null])]) =
      .error "unsupported version phase0" :=
  c3_phase0_gating_amended.2.2.2.2.2.2.1 [("data", .arr [.null])] [.null] rfl
    (by simp)

/-! ## Helper lemmas: stage-one parsing of well-shaped objects -/

theorem strArrElemsErr_map (t f : String) {α : Type} (g : α → String) :
    ∀ l : List α, strArrElemsErr t f (l.map fun a => .str (g a)) = none := by
  intro l
  induction l with
  | nil => rfl
  | cons a l ih => simpa [strArrElemsErr] using ih

theorem strArrElemsErr_map_str (t f : String) :
    ∀ ss : List String, strArrElemsErr t f (ss.map fun s => .str s) = none := by
  intro ss
  induction ss with
  | nil => rfl
  | cons a l ih => simpa [strArrElemsErr] using ih

theorem map_unstr {α : Type} (g : α → String) :
    ∀ l : List α,
      (l.map fun a => JVal.str (g a)).map
        (fun e => match e with | JVal.str s => s | _ => "") = l.map g := by
  intro l
  induction l with
  | nil => rfl
  | cons a l ih => simp only [List.map_cons, ih]

theorem map_unstr_str :
    ∀ ss : List String,
      (ss.map fun s => JVal.str s).map
        (fun e => match e with | JVal.str s => s | _ => "") = ss := by
  intro ss
  induction ss with
  | nil => rfl
  | cons a l ih => simp only [List.map_cons, ih]

theorem extractStrArr_map {α : Type} (g : α → String) (l : List α) :
    extractStrArr (some (.arr (l.map fun a => .str (g a)))) = some (l.map g) := by
  simp only [extractStrArr]
  rw [map_unstr]

theorem extractStrArr_map_str (ss : List String) :
    extractStrArr (some (.arr (ss.map fun s => .str s))) = some ss := by
  simp only [extractStrArr]
  rw [map_unstr_str]

theorem hdrOk_shape : ∀ o : Option BeaconBlockHeader, hdrOk o = true →
    ∃ kvs, o = some ⟨.obj kvs⟩ := by
  intro o h
  rcases o with - | hv
  · simp [hdrOk] at h
  · rcases hv with ⟨v⟩
    cases v with
    | obj kvs => exact ⟨kvs, rfl⟩
    | null => simp [hdrOk, isObjB] at h
    | bool b => simp [hdrOk, isObjB] at h
    | num n => simp [hdrOk, isObjB] at h
    | str s => simp [hdrOk, isObjB] at h
    | arr a => simp [hdrOk, isObjB] at h

theorem comOk_shape : ∀ o : Option SyncCommittee, comOk o = true →
    ∃ kvs, o = some ⟨.obj kvs⟩ := by
  intro o h
  rcases o with - | hv
  · simp [comOk] at h
  · rcases hv with ⟨v⟩
    cases v with
    | obj kvs => exact ⟨kvs, rfl⟩
    | null => simp [comOk, isObjB] at h
    | bool b => simp [comOk, isObjB] at h
    | num n => simp [comOk, isObjB] at h
    | str s => simp [comOk, isObjB] at h
    | arr a => simp [comOk, isObjB] at h

theorem aggOk_shape : ∀ o : Option SyncAggregate, aggOk o = true →
    ∃ kvs, o = some ⟨.obj kvs⟩ := by
  intro o h
  rcases o with - | hv
  · simp [aggOk] at h
  · rcases hv with ⟨v⟩
    cases v with
    | obj kvs => exact ⟨kvs, rfl⟩
    | null => simp [aggOk, isObjB] at h
    | bool b => simp [aggOk, isObjB] at h
    | num n => simp [aggOk, isObjB] at h
    | str s => simp [aggOk, isObjB] at h
    | arr a => simp [aggOk, isObjB] at h

theorem elemBytesOk_iff (bs : List Nat) :
    elemBytesOk bs = true ↔ bs.length = 32 ∧ ∀ b ∈ bs, b < 256 := by
  simp [elemBytesOk, List.all_eq_true]

theorem canonHexStr_of_ok (s : String)
    (hnone : (goHexDecodeCore (trim0x s).data).2 = none) :
    canonHexStr s = hexEncodeBytes (decElem s) := by
  rcases hp : goHexDecodeCore (trim0x s).data with ⟨bs, e⟩
  rw [hp] at hnone
  simp only at hnone
  subst hnone
  simp [canonHexStr, goHexDecodeString, hp, decElem]

theorem canonSlotStr_of_ok (s : String) (n : Nat) (h : goParseUint s = .ok n) :
    canonSlotStr s = goUintString n := by
  simp [canonSlotStr, h]

theorem elemOkGuard_decode_none (s : String) (h : elemOkGuard s = true) :
    (goHexDecodeCore (trim0x s).data).2 = none := by
  simp [elemOkGuard] at h
  exact h.1.2

theorem elemOk32_decode_none (s : String) (h : elemOk32 s = true) :
    (goHexDecodeCore (trim0x s).data).2 = none := by
  simp [elemOk32] at h
  exact h.1

theorem stage1_marshal_upd (bss tss : List (List Nat)) (n : Nat)
    (ah sc fh sa : List (String × JVal)) :
    v1.stage1LightClientUpdate
      (v1.LightClientUpdate.MarshalJSON
        ⟨some ⟨.obj ah⟩, some ⟨.obj sc⟩, bss, some ⟨.obj fh⟩, tss, some ⟨.obj sa⟩, n⟩) =
      .ok ⟨some ⟨.obj ah⟩, some ⟨.obj sc⟩, some (bss.map hexEncodeBytes), some ⟨.obj fh⟩,
        some (tss.map hexEncodeBytes), some ⟨.obj sa⟩, goUintString n⟩ := by
  simp [v1.stage1LightClientUpdate, v1.LightClientUpdate.MarshalJSON, stage1Err, scanFields,
    v1.lightClientUpdateJSONFieldErrs, opaqueFieldErr, strFieldErr, strArrFieldErr,
    strArrElemsErr_map, lastVal, extractOpaque, extractStrArr_map, extractStr, optJ]

theorem stage1_marshal_boot (bss : List (List Nat)) (hh cc : List (String × JVal)) :
    v1.stage1LightClientBootstrap
      (v1.LightClientBootstrap.MarshalJSON ⟨some ⟨.obj hh⟩, some ⟨.obj cc⟩, bss⟩) =
      .ok ⟨some ⟨.obj hh⟩, some ⟨.obj cc⟩, some (bss.map hexEncodeBytes)⟩ := by
  simp [v1.stage1LightClientBootstrap, v1.LightClientBootstrap.MarshalJSON, stage1Err,
    scanFields, v1.lightClientBootstrapJSONFieldErrs, opaqueFieldErr, strArrFieldErr,
    strArrElemsErr_map, lastVal, extractOpaque, extractStrArr_map, optJ]

/-! ## Helper lemmas: success inversion of the validating bodies -/

theorem upd_body_ok (jso : v1.lightClientUpdateJSON) (l : v1.LightClientUpdate)
    (hb : v1.LightClientUpdate.unmarshalBody v1.LightClientUpdate.zero jso = (l, none)) :
    ∃ ah sc nb fh fb sa slotn,
      jso.attestedHeader = some ah ∧ jso.nextSyncCommittee = some sc ∧
      jso.nextSyncCommitteeBranch = some nb ∧
      (∀ s ∈ nb, elemOkGuard s = true) ∧
      jso.finalizedHeader = some fh ∧ jso.finalityBranch = some fb ∧
      (∀ s ∈ fb, elemOkGuard s = true) ∧
      jso.syncAggregate = some sa ∧
      goParseUint jso.signatureSlot = .ok slotn ∧
      l = ⟨some ah, some sc, nb.map decElem, some fh, fb.map decElem, some sa, slotn⟩ := by
  obtain ⟨att, nsc, nbr, fin, fbr, agg, slotS⟩ := jso
  rcases att with - | ah
  · simp [v1.LightClientUpdate.unmarshalBody] at hb
  rcases nsc with - | sc
  · simp [v1.LightClientUpdate.unmarshalBody] at hb
  rcases nbr with - | nb
  · simp [v1.LightClientUpdate.unmarshalBody] at hb
  by_cases hnb0 : nb.length = 0
  · simp [v1.LightClientUpdate.unmarshalBody, hnb0] at hb
  rcases hr1 : branchLoopGuard "next_sync_committee_branch" nb 0 (List.replicate nb.length [])
    with ⟨out1, e1⟩
  cases e1 with
  | some e => simp [v1.LightClientUpdate.unmarshalBody, hnb0, hr1] at hb
  | none =>
  obtain ⟨hout1, hel1⟩ := branchLoopGuard_ok "next_sync_committee_branch" nb []
    (List.replicate nb.length []) out1 (by simp) (by simpa using hr1)
  rcases fin with - | fh
  · simp [v1.LightClientUpdate.unmarshalBody, hnb0, hr1] at hb
  rcases fbr with - | fb
  · simp [v1.LightClientUpdate.unmarshalBody, hnb0, hr1] at hb
  by_cases hfb0 : fb.length = 0
  · simp [v1.LightClientUpdate.unmarshalBody, hnb0, hr1, hfb0] at hb
  rcases hr2 : branchLoopGuard "finality_branch" fb 0 (List.replicate fb.length [])
    with ⟨out2, e2⟩
  cases e2 with
  | some e => simp [v1.LightClientUpdate.unmarshalBody, hnb0, hr1, hfb0, hr2] at hb
  | none =>
  obtain ⟨hout2, hel2⟩ := branchLoopGuard_ok "finality_branch" fb []
    (List.replicate fb.length []) out2 (by simp) (by simpa using hr2)
  rcases agg with - | sa
  · simp [v1.LightClientUpdate.unmarshalBody, hnb0, hr1, hfb0, hr2] at hb
  by_cases hss : slotS = ""
  · simp [v1.LightClientUpdate.unmarshalBody, hnb0, hr1, hfb0, hr2, hss] at hb
  rcases hps : goParseUint slotS with pe | slotn
  · simp [v1.LightClientUpdate.unmarshalBody, hnb0, hr1, hfb0, hr2, hss, hps] at hb
  · simp [v1.LightClientUpdate.unmarshalBody, hnb0, hr1, hfb0, hr2, hss, hps,
      Prod.mk.injEq] at hb
    simp only [List.nil_append] at hout1 hout2
    refine ⟨ah, sc, nb, fh, fb, sa, slotn, rfl, rfl, rfl, hel1, rfl, rfl, hel2, rfl, rfl, ?_⟩
    rw [← hb, hout1, hout2]

theorem boot_body_ok (jso : v1.lightClientBootstrapJSON) (l : v1.LightClientBootstrap)
    (hb : v1.LightClientBootstrap.unmarshalBody v1.LightClientBootstrap.zero jso =
      (l, none)) :
    ∃ hh cc br,
      jso.header = some hh ∧ jso.currentSyncCommittee = some cc ∧
      jso.currentSyncCommitteeBranch = some br ∧
      (∀ s ∈ br, elemOk32 s = true) ∧
      l = ⟨some hh, some cc, br.map decElem⟩ := by
  obtain ⟨hdr, com, brs⟩ := jso
  rcases hdr with - | hh
  · simp [v1.LightClientBootstrap.unmarshalBody] at hb
  rcases com with - | cc
  · simp [v1.LightClientBootstrap.unmarshalBody] at hb
  rcases brs with - | br
  · simp [v1.LightClientBootstrap.unmarshalBody] at hb
  by_cases hbr0 : br.length = 0
  · simp [v1.LightClientBootstrap.unmarshalBody, hbr0] at hb
  rcases hr : branchLoop32 "current_sync_committee_branch" br 0
      (List.replicate br.length (List.replicate 32 0)) with ⟨out, e⟩
  cases e with
  | some e =>
    simp only [v1.LightClientBootstrap.unmarshalBody] at hb
    rw [if_neg hbr0, hr] at hb
    exact absurd (congrArg Prod.snd hb) (by simp)
  | none =>
    obtain ⟨hout, hel⟩ := branchLoop32_ok "current_sync_committee_branch" br []
      (List.replicate br.length (List.replicate 32 0)) out (by simp) (by simpa using hr)
    simp only [v1.LightClientBootstrap.unmarshalBody] at hb
    rw [if_neg hbr0, hr] at hb
    have hb1 := congrArg Prod.fst hb
    dsimp only at hb1
    simp only [List.nil_append] at hout
    refine ⟨hh, cc, br, rfl, rfl, rfl, hel, ?_⟩
    rw [← hb1, hout]

/-! ## Helper lemmas: the four round-trip directions of claim C1 -/

theorem upd_enc_dec (x : v1.LightClientUpdate) (hwf : x.wf = true) :
    v1.decodeLightClientUpdate (v1.LightClientUpdate.MarshalJSON x) = .ok x := by
  obtain ⟨att, nsc, nbr, fin, fbr, agg, slot⟩ := x
  simp only [v1.LightClientUpdate.wf, Bool.and_eq_true] at hwf
  obtain ⟨⟨⟨⟨⟨⟨⟨⟨h1, h2⟩, h3⟩, h4⟩, h5⟩, h6⟩, h7⟩, h8⟩, h9⟩ := hwf
  obtain ⟨ah, rfl⟩ := hdrOk_shape att h1
  obtain ⟨sc, rfl⟩ := comOk_shape nsc h2
  obtain ⟨fh, rfl⟩ := hdrOk_shape fin h5
  obtain ⟨sa, rfl⟩ := aggOk_shape agg h8
  have hnbc : ∀ bs ∈ nbr, bs.length = 32 ∧ ∀ b ∈ bs, b < 256 := fun bs hbs =>
    (elemBytesOk_iff bs).mp (List.all_eq_true.mp h4 bs hbs)
  have hfbc : ∀ bs ∈ fbr, bs.length = 32 ∧ ∀ b ∈ bs, b < 256 := fun bs hbs =>
    (elemBytesOk_iff bs).mp (List.all_eq_true.mp h7 bs hbs)
  have hnbne : ¬ (nbr.map hexEncodeBytes).length = 0 := by
    cases nbr
    · simp at h3
    · simp
  have hfbne : ¬ (fbr.map hexEncodeBytes).length = 0 := by
    cases fbr
    · simp at h6
    · simp
  have hslot : slot < 2 ^ 64 := by exact_mod_cast of_decide_eq_true h9
  have hloop1 : branchLoopGuard "next_sync_committee_branch" (nbr.map hexEncodeBytes) 0
      (List.replicate (nbr.map hexEncodeBytes).length []) = (nbr, none) := by
    have := branchLoopGuard_encode "next_sync_committee_branch" nbr []
      (List.replicate nbr.length []) (by simp) hnbc
    simpa using this
  have hloop2 : branchLoopGuard "finality_branch" (fbr.map hexEncodeBytes) 0
      (List.replicate (fbr.map hexEncodeBytes).length []) = (fbr, none) := by
    have := branchLoopGuard_encode "finality_branch" fbr []
      (List.replicate fbr.length []) (by simp) hfbc
    simpa using this
  rw [v1.decodeLightClientUpdate, v1.LightClientUpdate.UnmarshalJSON,
    stage1_marshal_upd nbr fbr slot ah sc fh sa]
  simp only [v1.LightClientUpdate.unmarshalBody]
  rw [if_neg hnbne]
  simp only [hloop1]
  rw [if_neg hfbne]
  simp only [hloop2]
  rw [if_neg (goUintString_ne_empty slot)]
  simp only [goParseUint_goUintString slot hslot]

theorem upd_dec_canon (j : JVal) (r : v1.LightClientUpdate)
    (h : v1.decodeLightClientUpdate j = .ok r) :
    v1.LightClientUpdate.MarshalJSON r = v1.canonLightClientUpdate j := by
  cases hst : v1.stage1LightClientUpdate j with
  | error e =>
    rw [v1.decodeLightClientUpdate, v1.LightClientUpdate.UnmarshalJSON, hst] at h
    exact absurd h (by simp)
  | ok jso =>
    rw [v1.decodeLightClientUpdate, v1.LightClientUpdate.UnmarshalJSON, hst] at h
    dsimp only at h
    rcases hb : v1.LightClientUpdate.unmarshalBody v1.LightClientUpdate.zero jso
      with ⟨l, e2⟩
    rw [hb] at h
    cases e2 with
    | some e => exact absurd h (by simp)
    | none =>
      have hlr : l = r := by simpa using h
      subst hlr
      obtain ⟨ah, sc, nb, fh, fb, sa, slotn, hA, hB, hC, hel1, hD, hE, hel2, hF, hP, hL⟩ :=
        upd_body_ok jso l hb
      subst hL
      simp only [v1.canonLightClientUpdate, hst]
      simp [v1.LightClientUpdate.MarshalJSON, optJ, hA, hB, hC, hD, hE, hF,
        canonSlotStr_of_ok _ _ hP, List.map_map]
      constructor
      · intro a ha
        exact (canonHexStr_of_ok a (elemOkGuard_decode_none a (hel1 a ha))).symm
      · intro a ha
        exact (canonHexStr_of_ok a (elemOkGuard_decode_none a (hel2 a ha))).symm

theorem boot_enc_dec (x : v1.LightClientBootstrap) (hwf : x.wf = true) :
    v1.decodeLightClientBootstrap (v1.LightClientBootstrap.MarshalJSON x) = .ok x := by
  obtain ⟨hdr, com, brs⟩ := x
  simp only [v1.LightClientBootstrap.wf, Bool.and_eq_true] at hwf
  obtain ⟨⟨⟨h1, h2⟩, h3⟩, h4⟩ := hwf
  obtain ⟨hh, rfl⟩ := hdrOk_shape hdr h1
  obtain ⟨cc, rfl⟩ := comOk_shape com h2
  have hbc : ∀ bs ∈ brs, bs.length = 32 ∧ ∀ b ∈ bs, b < 256 := fun bs hbs =>
    (elemBytesOk_iff bs).mp (List.all_eq_true.mp h4 bs hbs)
  have hbne : ¬ (brs.map hexEncodeBytes).length = 0 := by
    cases brs
    · simp at h3
    · simp
  have hloop : branchLoop32 "current_sync_committee_branch" (brs.map hexEncodeBytes) 0
      (List.replicate (brs.map hexEncodeBytes).length (List.replicate 32 0)) =
        (brs, none) := by
    have := branchLoop32_encode "current_sync_committee_branch" brs []
      (List.replicate brs.length (List.replicate 32 0)) (by simp) hbc
    simpa using this
  rw [v1.decodeLightClientBootstrap, v1.LightClientBootstrap.UnmarshalJSON,
    stage1_marshal_boot brs hh cc]
  simp only [v1.LightClientBootstrap.unmarshalBody]
  rw [if_neg hbne]
  simp only [hloop]

theorem boot_dec_canon (j : JVal) (r : v1.LightClientBootstrap)
    (h : v1.decodeLightClientBootstrap j = .ok r) :
    v1.LightClientBootstrap.MarshalJSON r = v1.canonLightClientBootstrap j := by
  cases hst : v1.stage1LightClientBootstrap j with
  | error e =>
    rw [v1.decodeLightClientBootstrap, v1.LightClientBootstrap.UnmarshalJSON, hst] at h
    exact absurd h (by simp)
  | ok jso =>
    rw [v1.decodeLightClientBootstrap, v1.LightClientBootstrap.UnmarshalJSON, hst] at h
    dsimp only at h
    rcases hb : v1.LightClientBootstrap.unmarshalBody v1.LightClientBootstrap.zero jso
      with ⟨l, e2⟩
    rw [hb] at h
    cases e2 with
    | some e => exact absurd h (by simp)
    | none =>
      have hlr : l = r := by simpa using h
      subst hlr
      obtain ⟨hh, cc, br, hA, hB, hC, hel, hL⟩ := boot_body_ok jso l hb
      subst hL
      simp only [v1.canonLightClientBootstrap, hst]
      simp [v1.LightClientBootstrap.MarshalJSON, optJ, hA, hB, hC, List.map_map]
      intro a ha
      exact (canonHexStr_of_ok a (elemOk32_decode_none a (hel a ha))).symm

/-! ## Claim C1 -/

/-- C1 counterexample: the claim quantifies the round trip over every record;
a record whose next-sync-committee branch is empty marshals fine (the JSON
encoder does not validate) but its own encoding no longer decodes, so
`decode(encode(x)) = x` fails for it. -/
theorem c1_roundtrip_counterexample :
    v1.decodeLightClientUpdate (v1.LightClientUpdate.MarshalJSON
      ⟨some ⟨hObj⟩, some ⟨hObj⟩, [], some ⟨hObj⟩, [b32z], some ⟨hObj⟩, 1⟩) =
      .error "next_sync_committee_branch length cannot be 0" ∧
    ∀ r, v1.decodeLightClientUpdate (v1.LightClientUpdate.MarshalJSON
      ⟨some ⟨hObj⟩, some ⟨hObj⟩, [], some ⟨hObj⟩, [b32z], some ⟨hObj⟩, 1⟩) ≠ .ok r :=
  ⟨rfl, fun _ h => nomatch h⟩

/-- C1 amended: the textual codec round trip holds for well-formed records —
every substructure present and object-shaped, branches non-empty with
32-byte elements, slot within 64 bits (the element count is otherwise
unconstrained) — and in the reverse direction any wire object that decodes
re-encodes to its canonical rendering: fixed field order, `0x`-prefixed
lowercase hex elements, plain decimal slot.  Shown for the two cited record
types, `v1.LightClientUpdate` and `v1.LightClientBootstrap`. -/
theorem c1_roundtrip_amended :
    (∀ x : v1.LightClientUpdate, x.wf = true →
      v1.decodeLightClientUpdate (v1.LightClientUpdate.MarshalJSON x) = .ok x) ∧
    (∀ (j : JVal) (r : v1.LightClientUpdate), v1.decodeLightClientUpdate j = .ok r →
      v1.LightClientUpdate.MarshalJSON r = v1.canonLightClientUpdate j) ∧
    (∀ x : v1.LightClientBootstrap, x.wf = true →
      v1.decodeLightClientBootstrap (v1.LightClientBootstrap.MarshalJSON x) = .ok x) ∧
    (∀ (j : JVal) (r : v1.LightClientBootstrap), v1.decodeLightClientBootstrap j = .ok r →
      v1.LightClientBootstrap.MarshalJSON r = v1.canonLightClientBootstrap j) :=
  ⟨upd_enc_dec, upd_dec_canon, boot_enc_dec, boot_dec_canon⟩

/-- C1 witness: the amended round trip at a concrete well-formed record and
a concrete decodable wire object. -/
theorem c1_roundtrip_amended_witness :
    v1.decodeLightClientUpdate (v1.LightClientUpdate.MarshalJSON
      ⟨some ⟨hObj⟩, some ⟨hObj⟩, [b32z], some ⟨hObj⟩, [b32z], some ⟨hObj⟩, 1⟩) =
      .ok ⟨some ⟨hObj⟩, some ⟨hObj⟩, [b32z], some ⟨hObj⟩, [b32z], some ⟨hObj⟩, 1⟩ ∧
    v1.LightClientBootstrap.MarshalJSON
      ⟨some ⟨hObj⟩, some ⟨hObj⟩, [b32z, b32z]⟩ =
      v1.canonLightClientBootstrap (bootWire (jb 2)) :=
  ⟨c1_roundtrip_amended.1 _ (by rfl),
    c1_roundtrip_amended.2.2.2 (bootWire (jb 2)) _ (by rfl)⟩

/-! ## Claim C6 -/

set_option maxRecDepth 4000

/-- C6 counterexample: decoding a `signature_slot` holding the decimal
string `-1` fails with the message `invalid value for slot: ...`, which does
not name the wire field `signature_slot` — the repository's own tests pin
this exact message (src/unnamed/part_002, SignatureSlotInvalid). -/
theorem c6_slot_error_counterexample :
    v1.decodeLightClientUpdate (updWire (jb 1) (jb 1) (.str "-1")) =
      .error slotErrNeg1 ∧
    ¬ strContains slotErrNeg1 "signature_slot" ∧
    altair.decodeLightClientOptimisticUpdate (optWire (.str "-1")) =
      .error slotErrNeg1 :=
  ⟨rfl, by decide, rfl⟩

/-- C6 amended: slots are decimal strings; a present non-decimal or
overflowing slot string fails with the parse error `invalid value for slot:
<strconv error>`, which names the slot generically, not the wire field
`signature_slot`; a slot of the wrong JSON type fails at the JSON layer with
an `invalid JSON:`-wrapped type error (whose Go struct-field path does
mention `signature_slot`). -/
theorem c6_slot_parse_amended :
    (∀ s pe, ¬ s = "" → goParseUint s = .error pe →
      v1.decodeLightClientUpdate (updWire (jb 1) (jb 1) (.str s)) =
        .error ("invalid value for slot: " ++ pe)) ∧
    (∀ s pe, ¬ s = "" → goParseUint s = .error pe →
      altair.decodeLightClientOptimisticUpdate (optWire (.str s)) =
        .error ("invalid value for slot: " ++ pe)) ∧
    (∀ b, v1.decodeLightClientUpdate (updWire (jb 1) (jb 1) (.bool b)) =
      .error ("invalid JSON: " ++
        cannotUnmarshalField "bool" "lightClientUpdateJSON" "signature_slot" "string")) ∧
    strContains
      (cannotUnmarshalField "bool" "lightClientUpdateJSON" "signature_slot" "string")
      "signature_slot" := by
  refine ⟨?_, ?_, fun b => rfl, by decide⟩
  · intro s pe hne hpe
    have hst : v1.stage1LightClientUpdate (updWire (jb 1) (jb 1) (.str s)) =
        .ok ⟨some ⟨hObj⟩, some ⟨hObj⟩, some [b32s], some ⟨hObj⟩, some [b32s],
          some ⟨hObj⟩, s⟩ := rfl
    have hb : v1.LightClientUpdate.unmarshalBody v1.LightClientUpdate.zero
        ⟨some ⟨hObj⟩, some ⟨hObj⟩, some [b32s], some ⟨hObj⟩, some [b32s],
          some ⟨hObj⟩, s⟩ =
        (if s = "" then
          (⟨some ⟨hObj⟩, some ⟨hObj⟩, [b32z], some ⟨hObj⟩, [b32z], some ⟨hObj⟩, 0⟩,
            some "signature_slot missing")
        else
          match goParseUint s with
          | .error e =>
            (⟨some ⟨hObj⟩, some ⟨hObj⟩, [b32z], some ⟨hObj⟩, [b32z], some ⟨hObj⟩, 0⟩,
              some ("invalid value for slot: " ++ e))
          | .ok v =>
            (⟨some ⟨hObj⟩, some ⟨hObj⟩, [b32z], some ⟨hObj⟩, [b32z], some ⟨hObj⟩, v⟩,
              none)) := rfl
    rw [v1.decodeLightClientUpdate, v1.LightClientUpdate.UnmarshalJSON, hst]
    dsimp only
    rw [hb, if_neg hne, hpe]
  · intro s pe hne hpe
    have hst : altair.stage1LightClientOptimisticUpdate (optWire (.str s)) =
        .ok ⟨some ⟨some ⟨hObj⟩⟩, some ⟨hObj⟩, s⟩ := rfl
    have hb : altair.LightClientOptimisticUpdate.unmarshalBody
        altair.LightClientOptimisticUpdate.zero ⟨some ⟨some ⟨hObj⟩⟩, some ⟨hObj⟩, s⟩ =
        (if s = "" then
          (⟨some ⟨some ⟨hObj⟩⟩, some ⟨hObj⟩, 0⟩, some "signature_slot missing")
        else
          match goParseUint s with
          | .error e =>
            (⟨some ⟨some ⟨hObj⟩⟩, some ⟨hObj⟩, 0⟩,
              some ("invalid value for slot: " ++ e))
          | .ok v => (⟨some ⟨some ⟨hObj⟩⟩, some ⟨hObj⟩, v⟩, none)) := rfl
    rw [altair.decodeLightClientOptimisticUpdate,
      altair.LightClientOptimisticUpdate.UnmarshalJSON, hst]
    dsimp only
    rw [hb, if_neg hne, hpe]

/-- C6 witness: the amended slot behaviour at a concrete malformed slot. -/
theorem c6_slot_parse_amended_witness :
    v1.decodeLightClientUpdate (updWire (jb 1) (jb 1) (.str "12x")) =
      .error ("invalid value for slot: " ++
        "strconv.ParseUint: parsing \"12x\": invalid syntax") :=
  c6_slot_parse_amended.1 "12x"
    "strconv.ParseUint: parsing \"12x\": invalid syntax" (by decide) rfl

/-! ## Claim C5 -/

/-- C5 counterexample: an empty-string element hex-decodes to 0 bytes ≠ 32,
yet the guarded codecs fail it with `<field>[i] missing`, not the claimed
`invalid length of <field>[<i>]`. -/
theorem c5_empty_element_counterexample :
    v1.decodeLightClientUpdate (updWire (.arr [.str ""]) (jb 1) (.str "1")) =
      .error "next_sync_committee_branch[0] missing" ∧
    "next_sync_committee_branch[0] missing" ≠
      "invalid length of next_sync_committee_branch[0]" :=
  ⟨rfl, by decide⟩

/-! Stage-one forms of the three wire shapes used by claim C5. -/

theorem stage1_updWire (ss tt : List String) (slot : String) :
    v1.stage1LightClientUpdate
      (updWire (.arr (ss.map fun s => .str s)) (.arr (tt.map fun s => .str s))
        (.str slot)) =
      .ok ⟨some ⟨hObj⟩, some ⟨hObj⟩, some ss, some ⟨hObj⟩, some tt, some ⟨hObj⟩, slot⟩ := by
  simp [v1.stage1LightClientUpdate, stage1Err, scanFields,
    v1.lightClientUpdateJSONFieldErrs, opaqueFieldErr, strFieldErr, strArrFieldErr,
    strArrElemsErr_map_str, lastVal, extractOpaque, extractStrArr_map_str, extractStr,
    updWire, hObj]

theorem stage1_bootWire (ss : List String) :
    v1.stage1LightClientBootstrap (bootWire (.arr (ss.map fun s => .str s))) =
      .ok ⟨some ⟨hObj⟩, some ⟨hObj⟩, some ss⟩ := by
  simp [v1.stage1LightClientBootstrap, stage1Err, scanFields,
    v1.lightClientBootstrapJSONFieldErrs, opaqueFieldErr, strArrFieldErr,
    strArrElemsErr_map_str, lastVal, extractOpaque, extractStrArr_map_str,
    bootWire, hObj]

theorem stage1_capHdrWire (ss : List String) :
    capella.stage1LightClientHeader (capHdrWire (.arr (ss.map fun s => .str s))) =
      .ok ⟨some ⟨hObj⟩, some ⟨hObj⟩, some ss⟩ := by
  simp [capella.stage1LightClientHeader, stage1Err, scanFields,
    capella.lightClientHeaderJSONFieldErrs, opaqueFieldErr, strArrFieldErr,
    strArrElemsErr_map_str, lastVal, extractOpaque, extractStrArr_map_str,
    capHdrWire, hObj]

/-- C5 amended: decoding strips an optional `0x` per element; a *non-empty*
element of wrong decoded length fails with `invalid length of <field>[<i>]`
at the exact index, an invalid-hex element with a field-and-index-qualified
format error; but an empty-string element fails with `<field>[<i>] missing`
in the codecs carrying the empty-string guard (shown for the
`v1.LightClientUpdate` and `capella.LightClientHeader` branches), while the
unguarded `[][32]byte` codecs (shown for `v1.LightClientBootstrap`) report
even the empty string as `invalid length`. -/
theorem c5_branch_element_amended :
    (∀ good bad rest, (∀ g ∈ good, elemOkGuard g = true) → elemOkGuard bad = false →
      v1.decodeLightClientUpdate
        (updWire (.arr ((good ++ bad :: rest).map fun s => .str s))
          (.arr ([b32s].map fun s => .str s)) (.str "1")) =
        .error (elemErrMsgGuard "next_sync_committee_branch" good.length bad)) ∧
    (∀ good bad rest, (∀ g ∈ good, elemOk32 g = true) → elemOk32 bad = false →
      v1.decodeLightClientBootstrap
        (bootWire (.arr ((good ++ bad :: rest).map fun s => .str s))) =
        .error (elemErrMsg32 "current_sync_committee_branch" good.length bad)) ∧
    (∀ good bad rest, (∀ g ∈ good, elemOkGuard g = true) → elemOkGuard bad = false →
      capella.decodeLightClientHeader
        (capHdrWire (.arr ((good ++ bad :: rest).map fun s => .str s))) =
        .error (elemErrMsgGuard "execution_branch" good.length bad)) ∧
    (∀ f i s, ¬ s = "" → (goHexDecodeCore (trim0x s).data).2 = none →
      elemErrMsgGuard f i s =
        "invalid length of " ++ f ++ "[" ++ toString i ++ "]") ∧
    (∀ f i s e, ¬ s = "" → (goHexDecodeCore (trim0x s).data).2 = some e →
      elemErrMsgGuard f i s =
        "invalid value for " ++ f ++ "[" ++ toString i ++ "]: " ++ e) ∧
    (∀ f i, elemErrMsgGuard f i "" = f ++ "[" ++ toString i ++ "] missing") ∧
    (∀ f i, elemErrMsg32 f i "" =
      "invalid length of " ++ f ++ "[" ++ toString i ++ "]") := by
  refine ⟨?_, ?_, ?_, ?_, ?_, ?_, ?_⟩
  · intro good bad rest hg hbad
    have hst := stage1_updWire (good ++ bad :: rest) [b32s] "1"
    rw [v1.decodeLightClientUpdate, v1.LightClientUpdate.UnmarshalJSON, hst]
    dsimp only
    have hne : ¬ (good ++ bad :: rest).length = 0 := by simp
    have herr := branchLoopGuard_err "next_sync_committee_branch" good bad rest 0
      (List.replicate (good ++ bad :: rest).length []) hg hbad
    rcases hr : branchLoopGuard "next_sync_committee_branch" (good ++ bad :: rest) 0
      (List.replicate (good ++ bad :: rest).length []) with ⟨out, e⟩
    rw [hr] at herr
    simp only at herr
    subst herr
    simp only [v1.LightClientUpdate.unmarshalBody]
    rw [if_neg hne, hr]
    simp
  · intro good bad rest hg hbad
    have hst := stage1_bootWire (good ++ bad :: rest)
    rw [v1.decodeLightClientBootstrap, v1.LightClientBootstrap.UnmarshalJSON, hst]
    dsimp only
    have hne : ¬ (good ++ bad :: rest).length = 0 := by simp
    have herr := branchLoop32_err "current_sync_committee_branch" good bad rest 0
      (List.replicate (good ++ bad :: rest).length (List.replicate 32 0)) hg hbad
    rcases hr : branchLoop32 "current_sync_committee_branch" (good ++ bad :: rest) 0
      (List.replicate (good ++ bad :: rest).length (List.replicate 32 0)) with ⟨out, e⟩
    rw [hr] at herr
    simp only at herr
    subst herr
    simp only [v1.LightClientBootstrap.unmarshalBody]
    rw [if_neg hne, hr]
    simp
  · intro good bad rest hg hbad
    have hst := stage1_capHdrWire (good ++ bad :: rest)
    rw [capella.decodeLightClientHeader, capella.LightClientHeader.UnmarshalJSON, hst]
    dsimp only
    have hne : ¬ (good ++ bad :: rest).length = 0 := by simp
    have herr := branchLoopGuard_err "execution_branch" good bad rest 0
      (List.replicate (good ++ bad :: rest).length []) hg hbad
    rcases hr : branchLoopGuard "execution_branch" (good ++ bad :: rest) 0
      (List.replicate (good ++ bad :: rest).length []) with ⟨out, e⟩
    rw [hr] at herr
    simp only at herr
    subst herr
    simp only [capella.LightClientHeader.unmarshalBody]
    rw [if_neg hne, hr]
    simp
  · intro f i s hne hnone
    rcases hp : goHexDecodeCore (trim0x s).data with ⟨bs, e⟩
    rw [hp] at hnone
    simp only at hnone
    subst hnone
    simp [elemErrMsgGuard, hne, hp]
  · intro f i s e hne hsome
    rcases hp : goHexDecodeCore (trim0x s).data with ⟨bs, e2⟩
    rw [hp] at hsome
    simp only at hsome
    subst hsome
    simp [elemErrMsgGuard, hne, hp]
  · intro f i
    simp [elemErrMsgGuard]
  · intro f i
    simp [elemErrMsg32, trim0x, goHexDecodeCore]

/-- C5 witness: the amended element behaviour at a concrete short element. -/
theorem c5_branch_element_amended_witness :
    v1.decodeLightClientUpdate
      (updWire (.arr (["0x12acde"].map fun s => .str s))
        (.arr ([b32s].map fun s => .str s)) (.str "1")) =
      .error (elemErrMsgGuard "next_sync_committee_branch" 0 "0x12acde") :=
  c5_branch_element_amended.1 [] "0x12acde" [] (by simp) rfl

/-! ## Claim C2 -/

theorem decodeUpdatesLoop_err (version : DataVersion) :
    ∀ (pre : List JVal) (u : JVal) (post : List JVal) (e : String),
      decodeOneUpdate version u = .error e →
      (∀ p ∈ pre, ∃ d, decodeOneUpdate version p = .ok d) →
      decodeUpdatesLoop version (pre ++ u :: post) = .error e := by
  intro pre
  induction pre with
  | nil =>
    intro u post e hu _
    simp [decodeUpdatesLoop, hu]
  | cons p pre ih =>
    intro u post e hu hok
    obtain ⟨d, hd⟩ := hok p (by simp)
    simp [decodeUpdatesLoop, hd,
      ih u post e hu fun q hq => hok q (by simp [hq]), Except.map]

/-- C2 counterexample: the claimed scenario — three update elements, the
second with a five-element finality branch of valid 32-byte values — does
not fail: the textual codec never checks the element count, so the whole
`GetUpdates` decode succeeds and returns all three envelopes. -/
theorem c2_updates_scenario_counterexample :
    lightClientUpdatesFromJSON .altair c2body =
      .ok { Data := [c2env 6, c2env 5, c2env 6],
            Metadata := [("version", .str (DataVersion.runeStr .altair))] } ∧
    ∀ e, lightClientUpdatesFromJSON .altair c2body ≠ .error e :=
  ⟨rfl, fun _ h => nomatch h⟩

/-- C2 amended: a response list whose second element's finality branch has
five valid 32-byte elements decodes successfully (the JSON codec checks
only non-emptiness and the 32-byte element length, never the count); what
does hold is that a genuinely failing element — at any position — fails the
whole `GetUpdates` call with no partial list. -/
theorem c2_updates_amended :
    (∀ (version : DataVersion) (kvs : List (String × JVal)) (pre : List JVal)
        (u : JVal) (post : List JVal) (e : String),
      decodeOneUpdate version u = .error e →
      (∀ p ∈ pre, ∃ d, decodeOneUpdate version p = .ok d) →
      lastVal "data" kvs = some (.arr (pre ++ u :: post)) →
      lightClientUpdatesFromJSON version (.obj kvs) = .error e) ∧
    altairMod.decodeLightClientUpdate (updWireA (jb 5)) = .ok (updRecA 5) ∧
    altairMod.decodeLightClientUpdate (updWireA (jb 7)) = .ok (updRecA 7) := by
  refine ⟨?_, rfl, rfl⟩
  intro version kvs pre u post e hu hok hlast
  have hl := decodeUpdatesLoop_err version pre u post e hu hok
  simp [lightClientUpdatesFromJSON, hlast, hl, Except.map]

/-- C2 witness: the amended whole-call failure at a concrete bad element. -/
theorem c2_updates_amended_witness :
    lightClientUpdatesFromJSON .altair (.obj [("data", .arr [.bool true])]) =
      .error ("invalid JSON: " ++
        cannotUnmarshalValue "bool" "altair.lightClientUpdateJSON") :=
  c2_updates_amended.1 .altair [("data", .arr [.bool true])] [] (.bool true) []
    ("invalid JSON: " ++ cannotUnmarshalValue "bool" "altair.lightClientUpdateJSON")
    rfl (by simp) rfl

/-! ## Claim C7 -/

/-- C7: every finality-update envelope a successful JSON decode produces has
exactly the payload slot matching its fork tag populated; in particular a
bellatrix-tagged response is decoded with the shared altair record shape
(the same decoder the altair branch uses) and lands in the Bellatrix slot
under the bellatrix tag. -/
theorem c7_envelope_exactly_one :
    (∀ version data u md,
      versionedLCFinalityUpdateFromJSON version data = .ok (u, md) →
      u.slotsOk = true ∧ u.Version = version) ∧
    (∀ data u md,
      versionedLCFinalityUpdateFromJSON .bellatrix data = .ok (u, md) →
      ∃ r, decodeJSONResponse altairMod.decodeLightClientFinalityUpdate data =
          .ok (r, md) ∧
        u = { Version := .bellatrix, Bellatrix := some r }) := by
  constructor
  · intro version data u md h
    cases version with
    | phase0 => exact absurd h (by simp [versionedLCFinalityUpdateFromJSON])
    | altair =>
      cases hd : decodeJSONResponse altairMod.decodeLightClientFinalityUpdate data with
      | error e =>
        rw [versionedLCFinalityUpdateFromJSON, hd] at h
        exact absurd h (by simp [Except.map])
      | ok p =>
        rw [versionedLCFinalityUpdateFromJSON, hd] at h
        simp only [Except.map, Except.ok.injEq, Prod.mk.injEq] at h
        obtain ⟨h1, h2⟩ := h
        subst h1
        exact ⟨rfl, rfl⟩
    | bellatrix =>
      cases hd : decodeJSONResponse altairMod.decodeLightClientFinalityUpdate data with
      | error e =>
        rw [versionedLCFinalityUpdateFromJSON, hd] at h
        exact absurd h (by simp [Except.map])
      | ok p =>
        rw [versionedLCFinalityUpdateFromJSON, hd] at h
        simp only [Except.map, Except.ok.injEq, Prod.mk.injEq] at h
        obtain ⟨h1, h2⟩ := h
        subst h1
        exact ⟨rfl, rfl⟩
    | capella =>
      cases hd : decodeJSONResponse capellaMod.decodeLightClientFinalityUpdate data with
      | error e =>
        rw [versionedLCFinalityUpdateFromJSON, hd] at h
        exact absurd h (by simp [Except.map])
      | ok p =>
        rw [versionedLCFinalityUpdateFromJSON, hd] at h
        simp only [Except.map, Except.ok.injEq, Prod.mk.injEq] at h
        obtain ⟨h1, h2⟩ := h
        subst h1
        exact ⟨rfl, rfl⟩
    | deneb =>
      cases hd : decodeJSONResponse denebMod.decodeLightClientFinalityUpdate data with
      | error e =>
        rw [versionedLCFinalityUpdateFromJSON, hd] at h
        exact absurd h (by simp [Except.map])
      | ok p =>
        rw [versionedLCFinalityUpdateFromJSON, hd] at h
        simp only [Except.map, Except.ok.injEq, Prod.mk.injEq] at h
        obtain ⟨h1, h2⟩ := h
        subst h1
        exact ⟨rfl, rfl⟩
  · intro data u md h
    cases hd : decodeJSONResponse altairMod.decodeLightClientFinalityUpdate data with
    | error e =>
      rw [versionedLCFinalityUpdateFromJSON, hd] at h
      exact absurd h (by simp [Except.map])
    | ok p =>
      rcases p with ⟨r, m⟩
      rw [versionedLCFinalityUpdateFromJSON, hd] at h
      simp only [Except.map, Except.ok.injEq, Prod.mk.injEq] at h
      obtain ⟨h1, h2⟩ := h
      subst h1
      subst h2
      exact ⟨r, rfl, rfl⟩

/-- C7 witness: a concrete bellatrix-tagged response that decodes. -/
theorem c7_envelope_exactly_one_witness :
    versionedLCFinalityUpdateFromJSON .bellatrix
      (.obj [("version", .str "bellatrix"), ("data", finWireA)]) =
      .ok ({ Version := .bellatrix, Bellatrix := some finRecA },
        [("version", .str "bellatrix")]) ∧
    VersionedLCFinalityUpdate.slotsOk
      { Version := .bellatrix, Bellatrix := some finRecA } = true :=
  ⟨rfl,
    (c7_envelope_exactly_one.1 .bellatrix
      (.obj [("version", .str "bellatrix"), ("data", finWireA)]) _ _ rfl).1⟩

/-! ## Claim C4: helper lemmas, one per required field -/

theorem upd_missing_attested (l0 : v1.LightClientUpdate)
    (jso : v1.lightClientUpdateJSON) (h : jso.attestedHeader = none) :
    (v1.LightClientUpdate.unmarshalBody l0 jso).2 = some "attested_header missing" := by
  simp [v1.LightClientUpdate.unmarshalBody, h]

theorem upd_missing_committee (l0 : v1.LightClientUpdate)
    (jso : v1.lightClientUpdateJSON) (ah : BeaconBlockHeader)
    (h1 : jso.attestedHeader = some ah) (h2 : jso.nextSyncCommittee = none) :
    (v1.LightClientUpdate.unmarshalBody l0 jso).2 =
      some "next_sync_committee missing" := by
  simp [v1.LightClientUpdate.unmarshalBody, h1, h2]

theorem upd_missing_nsc_branch (l0 : v1.LightClientUpdate)
    (jso : v1.lightClientUpdateJSON) (ah : BeaconBlockHeader) (sc : SyncCommittee)
    (h1 : jso.attestedHeader = some ah) (h2 : jso.nextSyncCommittee = some sc)
    (h3 : jso.nextSyncCommitteeBranch = none) :
    (v1.LightClientUpdate.unmarshalBody l0 jso).2 =
      some "next_sync_committee_branch missing" := by
  simp [v1.LightClientUpdate.unmarshalBody, h1, h2, h3]

theorem upd_empty_nsc_branch (l0 : v1.LightClientUpdate)
    (jso : v1.lightClientUpdateJSON) (ah : BeaconBlockHeader) (sc : SyncCommittee)
    (h1 : jso.attestedHeader = some ah) (h2 : jso.nextSyncCommittee = some sc)
    (h3 : jso.nextSyncCommitteeBranch = some []) :
    (v1.LightClientUpdate.unmarshalBody l0 jso).2 =
      some "next_sync_committee_branch length cannot be 0" := by
  simp [v1.LightClientUpdate.unmarshalBody, h1, h2, h3]

theorem upd_missing_finalized (l0 : v1.LightClientUpdate)
    (jso : v1.lightClientUpdateJSON) (ah : BeaconBlockHeader) (sc : SyncCommittee)
    (nb : List String)
    (h1 : jso.attestedHeader = some ah) (h2 : jso.nextSyncCommittee = some sc)
    (h3 : jso.nextSyncCommitteeBranch = some nb) (hne : ¬ nb.length = 0)
    (hloop : (branchLoopGuard "next_sync_committee_branch" nb 0
      (List.replicate nb.length [])).2 = none)
    (h4 : jso.finalizedHeader = none) :
    (v1.LightClientUpdate.unmarshalBody l0 jso).2 =
      some "finalized_header missing" := by
  rcases hr : branchLoopGuard "next_sync_committee_branch" nb 0
    (List.replicate nb.length []) with ⟨out, e⟩
  rw [hr] at hloop
  simp only at hloop
  subst hloop
  simp only [v1.LightClientUpdate.unmarshalBody, h1, h2, h3]
  rw [if_neg hne, hr]
  simp [h4]

theorem upd_missing_fin_branch (l0 : v1.LightClientUpdate)
    (jso : v1.lightClientUpdateJSON) (ah : BeaconBlockHeader) (sc : SyncCommittee)
    (nb : List String) (fh : BeaconBlockHeader)
    (h1 : jso.attestedHeader = some ah) (h2 : jso.nextSyncCommittee = some sc)
    (h3 : jso.nextSyncCommitteeBranch = some nb) (hne : ¬ nb.length = 0)
    (hloop : (branchLoopGuard "next_sync_committee_branch" nb 0
      (List.replicate nb.length [])).2 = none)
    (h4 : jso.finalizedHeader = some fh) (h5 : jso.finalityBranch = none) :
    (v1.LightClientUpdate.unmarshalBody l0 jso).2 =
      some "finality_branch missing" := by
  rcases hr : branchLoopGuard "next_sync_committee_branch" nb 0
    (List.replicate nb.length []) with ⟨out, e⟩
  rw [hr] at hloop
  simp only at hloop
  subst hloop
  simp only [v1.LightClientUpdate.unmarshalBody, h1, h2, h3]
  rw [if_neg hne, hr]
  simp [h4, h5]

theorem upd_empty_fin_branch (l0 : v1.LightClientUpdate)
    (jso : v1.lightClientUpdateJSON) (ah : BeaconBlockHeader) (sc : SyncCommittee)
    (nb : List String) (fh : BeaconBlockHeader)
    (h1 : jso.attestedHeader = some ah) (h2 : jso.nextSyncCommittee = some sc)
    (h3 : jso.nextSyncCommitteeBranch = some nb) (hne : ¬ nb.length = 0)
    (hloop : (branchLoopGuard "next_sync_committee_branch" nb 0
      (List.replicate nb.length [])).2 = none)
    (h4 : jso.finalizedHeader = some fh) (h5 : jso.finalityBranch = some []) :
    (v1.LightClientUpdate.unmarshalBody l0 jso).2 =
      some "finality_branch length cannot be 0" := by
  rcases hr : branchLoopGuard "next_sync_committee_branch" nb 0
    (List.replicate nb.length []) with ⟨out, e⟩
  rw [hr] at hloop
  simp only at hloop
  subst hloop
  simp only [v1.LightClientUpdate.unmarshalBody, h1, h2, h3]
  rw [if_neg hne, hr]
  simp [h4, h5]

theorem upd_missing_aggregate (l0 : v1.LightClientUpdate)
    (jso : v1.lightClientUpdateJSON) (ah : BeaconBlockHeader) (sc : SyncCommittee)
    (nb fb : List String) (fh : BeaconBlockHeader)
    (h1 : jso.attestedHeader = some ah) (h2 : jso.nextSyncCommittee = some sc)
    (h3 : jso.nextSyncCommitteeBranch = some nb) (hne : ¬ nb.length = 0)
    (hloop : (branchLoopGuard "next_sync_committee_branch" nb 0
      (List.replicate nb.length [])).2 = none)
    (h4 : jso.finalizedHeader = some fh) (h5 : jso.finalityBranch = some fb)
    (hne2 : ¬ fb.length = 0)
    (hloop2 : (branchLoopGuard "finality_branch" fb 0
      (List.replicate fb.length [])).2 = none)
    (h6 : jso.syncAggregate = none) :
    (v1.LightClientUpdate.unmarshalBody l0 jso).2 =
      some "sync_aggregate missing" := by
  rcases hr : branchLoopGuard "next_sync_committee_branch" nb 0
    (List.replicate nb.length []) with ⟨out, e⟩
  rw [hr] at hloop
  simp only at hloop
  subst hloop
  rcases hr2 : branchLoopGuard "finality_branch" fb 0
    (List.replicate fb.length []) with ⟨out2, e2⟩
  rw [hr2] at hloop2
  simp only at hloop2
  subst hloop2
  simp only [v1.LightClientUpdate.unmarshalBody, h1, h2, h3]
  rw [if_neg hne, hr]
  simp only [h4, h5]
  rw [if_neg hne2, hr2]
  simp [h6]

theorem upd_missing_slot (l0 : v1.LightClientUpdate)
    (jso : v1.lightClientUpdateJSON) (ah : BeaconBlockHeader) (sc : SyncCommittee)
    (nb fb : List String) (fh : BeaconBlockHeader) (sa : SyncAggregate)
    (h1 : jso.attestedHeader = some ah) (h2 : jso.nextSyncCommittee = some sc)
    (h3 : jso.nextSyncCommitteeBranch = some nb) (hne : ¬ nb.length = 0)
    (hloop : (branchLoopGuard "next_sync_committee_branch" nb 0
      (List.replicate nb.length [])).2 = none)
    (h4 : jso.finalizedHeader = some fh) (h5 : jso.finalityBranch = some fb)
    (hne2 : ¬ fb.length = 0)
    (hloop2 : (branchLoopGuard "finality_branch" fb 0
      (List.replicate fb.length [])).2 = none)
    (h6 : jso.syncAggregate = some sa) (h7 : jso.signatureSlot = "") :
    (v1.LightClientUpdate.unmarshalBody l0 jso).2 =
      some "signature_slot missing" := by
  rcases hr : branchLoopGuard "next_sync_committee_branch" nb 0
    (List.replicate nb.length []) with ⟨out, e⟩
  rw [hr] at hloop
  simp only at hloop
  subst hloop
  rcases hr2 : branchLoopGuard "finality_branch" fb 0
    (List.replicate fb.length []) with ⟨out2, e2⟩
  rw [hr2] at hloop2
  simp only at hloop2
  subst hloop2
  simp only [v1.LightClientUpdate.unmarshalBody, h1, h2, h3]
  rw [if_neg hne, hr]
  simp only [h4, h5]
  rw [if_neg hne2, hr2]
  simp [h6, h7]

theorem boot_missing_header (l0 : v1.LightClientBootstrap)
    (jso : v1.lightClientBootstrapJSON) (h : jso.header = none) :
    (v1.LightClientBootstrap.unmarshalBody l0 jso).2 = some "header missing" := by
  simp [v1.LightClientBootstrap.unmarshalBody, h]

theorem boot_missing_committee (l0 : v1.LightClientBootstrap)
    (jso : v1.lightClientBootstrapJSON) (hh : BeaconBlockHeader)
    (h1 : jso.header = some hh) (h2 : jso.currentSyncCommittee = none) :
    (v1.LightClientBootstrap.unmarshalBody l0 jso).2 =
      some "current_sync_committee missing" := by
  simp [v1.LightClientBootstrap.unmarshalBody, h1, h2]

theorem boot_missing_branch (l0 : v1.LightClientBootstrap)
    (jso : v1.lightClientBootstrapJSON) (hh : BeaconBlockHeader) (cc : SyncCommittee)
    (h1 : jso.header = some hh) (h2 : jso.currentSyncCommittee = some cc)
    (h3 : jso.currentSyncCommitteeBranch = none) :
    (v1.LightClientBootstrap.unmarshalBody l0 jso).2 =
      some "current_sync_committee_branch missing" := by
  simp [v1.LightClientBootstrap.unmarshalBody, h1, h2, h3]

theorem boot_empty_branch (l0 : v1.LightClientBootstrap)
    (jso : v1.lightClientBootstrapJSON) (hh : BeaconBlockHeader) (cc : SyncCommittee)
    (h1 : jso.header = some hh) (h2 : jso.currentSyncCommittee = some cc)
    (h3 : jso.currentSyncCommitteeBranch = some []) :
    (v1.LightClientBootstrap.unmarshalBody l0 jso).2 =
      some "current_sync_committee_branch length cannot be 0" := by
  simp [v1.LightClientBootstrap.unmarshalBody, h1, h2, h3]

/-- Stage one maps an absent or JSON-null member to the zero value the
validation stage then reports as missing. -/
theorem stage1_absent_or_null_attested (kvs : List (String × JVal))
    (jso : v1.lightClientUpdateJSON)
    (hst : v1.stage1LightClientUpdate (.obj kvs) = .ok jso)
    (h : lastVal "attested_header" kvs = none ∨
      lastVal "attested_header" kvs = some .null) :
    jso.attestedHeader = none := by
  simp only [v1.stage1LightClientUpdate] at hst
  rcases hs : stage1Err v1.lightClientUpdateJSONFieldErrs kvs with - | e
  · rw [hs] at hst
    cases hst
    rcases h with h | h <;> simp [h, extractOpaque]
  · rw [hs] at hst
    cases hst

theorem stage1_absent_or_null_nsc_branch (kvs : List (String × JVal))
    (jso : v1.lightClientUpdateJSON)
    (hst : v1.stage1LightClientUpdate (.obj kvs) = .ok jso)
    (h : lastVal "next_sync_committee_branch" kvs = none ∨
      lastVal "next_sync_committee_branch" kvs = some .null) :
    jso.nextSyncCommitteeBranch = none := by
  simp only [v1.stage1LightClientUpdate] at hst
  rcases hs : stage1Err v1.lightClientUpdateJSONFieldErrs kvs with - | e
  · rw [hs] at hst
    cases hst
    rcases h with h | h <;> simp [h, extractStrArr]
  · rw [hs] at hst
    cases hst

theorem extractStr_all_null (k : String) :
    ∀ kvs : List (String × JVal), (∀ v, (k, v) ∈ kvs → v = .null) →
      extractStr k kvs = "" := by
  have gen : ∀ (kvs : List (String × JVal)) (a : String),
      (∀ v, (k, v) ∈ kvs → v = .null) →
      kvs.foldl (fun a p => if p.1 = k then
        (match p.2 with | .str s => s | _ => a) else a) a = a := by
    intro kvs
    induction kvs with
    | nil => intro a _; rfl
    | cons p kvs ih =>
      intro a hnull
      rcases p with ⟨pk, pv⟩
      by_cases hk : pk = k
      · subst hk
        have : pv = .null := hnull pv (by simp)
        subst this
        simpa using ih a fun v hv => hnull v (by simp [hv])
      · simp only [List.foldl_cons, if_neg hk]
        exact ih a fun v hv => hnull v (by simp [hv])
  intro kvs h
  exact gen kvs "" h

theorem stage1_slot_all_null (kvs : List (String × JVal))
    (jso : v1.lightClientUpdateJSON)
    (hst : v1.stage1LightClientUpdate (.obj kvs) = .ok jso)
    (h : ∀ v, ("signature_slot", v) ∈ kvs → v = .null) :
    jso.signatureSlot = "" := by
  simp only [v1.stage1LightClientUpdate] at hst
  rcases hs : stage1Err v1.lightClientUpdateJSONFieldErrs kvs with - | e
  · rw [hs] at hst
    cases hst
    exact extractStr_all_null "signature_slot" kvs h
  · rw [hs] at hst
    cases hst

/-- C4: each required field is checked on its own — an absent or JSON-null
member leaves the zero value in the wire struct, and the validating body
fails with exactly `<field> missing` for the first missing field in
declaration order whatever the later fields hold; a branch member that is
present but `[]` fails with `<field> length cannot be 0`.  Shown for every
field of `v1.LightClientUpdate` and `v1.LightClientBootstrap`, together with
the stage-one facts connecting "absent or null" to the zero value. -/
theorem c4_field_presence :
    (∀ l0 jso, jso.attestedHeader = none →
      (v1.LightClientUpdate.unmarshalBody l0 jso).2 =
        some "attested_header missing") ∧
    (∀ l0 jso ah, jso.attestedHeader = some ah → jso.nextSyncCommittee = none →
      (v1.LightClientUpdate.unmarshalBody l0 jso).2 =
        some "next_sync_committee missing") ∧
    (∀ l0 jso ah sc, jso.attestedHeader = some ah → jso.nextSyncCommittee = some sc →
      jso.nextSyncCommitteeBranch = none →
      (v1.LightClientUpdate.unmarshalBody l0 jso).2 =
        some "next_sync_committee_branch missing") ∧
    (∀ l0 jso ah sc, jso.attestedHeader = some ah → jso.nextSyncCommittee = some sc →
      jso.nextSyncCommitteeBranch = some [] →
      (v1.LightClientUpdate.unmarshalBody l0 jso).2 =
        some "next_sync_committee_branch length cannot be 0") ∧
    (∀ l0 jso ah sc nb, jso.attestedHeader = some ah →
      jso.nextSyncCommittee = some sc → jso.nextSyncCommitteeBranch = some nb →
      ¬ nb.length = 0 →
      (branchLoopGuard "next_sync_committee_branch" nb 0
        (List.replicate nb.length [])).2 = none →
      jso.finalizedHeader = none →
      (v1.LightClientUpdate.unmarshalBody l0 jso).2 =
        some "finalized_header missing") ∧
    (∀ l0 jso ah sc nb fh, jso.attestedHeader = some ah →
      jso.nextSyncCommittee = some sc → jso.nextSyncCommitteeBranch = some nb →
      ¬ nb.length = 0 →
      (branchLoopGuard "next_sync_committee_branch" nb 0
        (List.replicate nb.length [])).2 = none →
      jso.finalizedHeader = some fh → jso.finalityBranch = none →
      (v1.LightClientUpdate.unmarshalBody l0 jso).2 =
        some "finality_branch missing") ∧
    (∀ l0 jso ah sc nb fh, jso.attestedHeader = some ah →
      jso.nextSyncCommittee = some sc → jso.nextSyncCommitteeBranch = some nb →
      ¬ nb.length = 0 →
      (branchLoopGuard "next_sync_committee_branch" nb 0
        (List.replicate nb.length [])).2 = none →
      jso.finalizedHeader = some fh → jso.finalityBranch = some [] →
      (v1.LightClientUpdate.unmarshalBody l0 jso).2 =
        some "finality_branch length cannot be 0") ∧
    (∀ l0 jso ah sc nb fb fh, jso.attestedHeader = some ah →
      jso.nextSyncCommittee = some sc → jso.nextSyncCommitteeBranch = some nb →
      ¬ nb.length = 0 →
      (branchLoopGuard "next_sync_committee_branch" nb 0
        (List.replicate nb.length [])).2 = none →
      jso.finalizedHeader = some fh → jso.finalityBranch = some fb →
      ¬ fb.length = 0 →
      (branchLoopGuard "finality_branch" fb 0
        (List.replicate fb.length [])).2 = none →
      jso.syncAggregate = none →
      (v1.LightClientUpdate.unmarshalBody l0 jso).2 =
        some "sync_aggregate missing") ∧
    (∀ l0 jso ah sc nb fb fh sa, jso.attestedHeader = some ah →
      jso.nextSyncCommittee = some sc → jso.nextSyncCommitteeBranch = some nb →
      ¬ nb.length = 0 →
      (branchLoopGuard "next_sync_committee_branch" nb 0
        (List.replicate nb.length [])).2 = none →
      jso.finalizedHeader = some fh → jso.finalityBranch = some fb →
      ¬ fb.length = 0 →
      (branchLoopGuard "finality_branch" fb 0
        (List.replicate fb.length [])).2 = none →
      jso.syncAggregate = some sa → jso.signatureSlot = "" →
      (v1.LightClientUpdate.unmarshalBody l0 jso).2 =
        some "signature_slot missing") ∧
    (∀ l0 jso, jso.header = none →
      (v1.LightClientBootstrap.unmarshalBody l0 jso).2 = some "header missing") ∧
    (∀ l0 jso hh, jso.header = some hh → jso.currentSyncCommittee = none →
      (v1.LightClientBootstrap.unmarshalBody l0 jso).2 =
        some "current_sync_committee missing") ∧
    (∀ l0 jso hh cc, jso.header = some hh → jso.currentSyncCommittee = some cc →
      jso.currentSyncCommitteeBranch = none →
      (v1.LightClientBootstrap.unmarshalBody l0 jso).2 =
        some "current_sync_committee_branch missing") ∧
    (∀ l0 jso hh cc, jso.header = some hh → jso.currentSyncCommittee = some cc →
      jso.currentSyncCommitteeBranch = some [] →
      (v1.LightClientBootstrap.unmarshalBody l0 jso).2 =
        some "current_sync_committee_branch length cannot be 0") ∧
    (∀ kvs jso, v1.stage1LightClientUpdate (.obj kvs) = .ok jso →
      (lastVal "attested_header" kvs = none ∨
        lastVal "attested_header" kvs = some .null) →
      jso.attestedHeader = none) ∧
    (∀ kvs jso, v1.stage1LightClientUpdate (.obj kvs) = .ok jso →
      (lastVal "next_sync_committee_branch" kvs = none ∨
        lastVal "next_sync_committee_branch" kvs = some .null) →
      jso.nextSyncCommitteeBranch = none) ∧
    (∀ kvs jso, v1.stage1LightClientUpdate (.obj kvs) = .ok jso →
      (∀ v, ("signature_slot", v) ∈ kvs → v = .null) →
      jso.signatureSlot = "") :=
  ⟨upd_missing_attested, upd_missing_committee, upd_missing_nsc_branch,
    upd_empty_nsc_branch,
    fun l0 jso ah sc nb h1 h2 h3 hne hl h4 =>
      upd_missing_finalized l0 jso ah sc nb h1 h2 h3 hne hl h4,
    fun l0 jso ah sc nb fh h1 h2 h3 hne hl h4 h5 =>
      upd_missing_fin_branch l0 jso ah sc nb fh h1 h2 h3 hne hl h4 h5,
    fun l0 jso ah sc nb fh h1 h2 h3 hne hl h4 h5 =>
      upd_empty_fin_branch l0 jso ah sc nb fh h1 h2 h3 hne hl h4 h5,
    fun l0 jso ah sc nb fb fh h1 h2 h3 hne hl h4 h5 hne2 hl2 h6 =>
      upd_missing_aggregate l0 jso ah sc nb fb fh h1 h2 h3 hne hl h4 h5 hne2 hl2 h6,
    fun l0 jso ah sc nb fb fh sa h1 h2 h3 hne hl h4 h5 hne2 hl2 h6 h7 =>
      upd_missing_slot l0 jso ah sc nb fb fh sa h1 h2 h3 hne hl h4 h5 hne2 hl2 h6 h7,
    boot_missing_header, boot_missing_committee, boot_missing_branch,
    boot_empty_branch,
    stage1_absent_or_null_attested, stage1_absent_or_null_nsc_branch,
    stage1_slot_all_null⟩

/-! ## Claim C10: helper lemmas, one per persisted field -/

theorem upd_keep_attested (l0 : v1.LightClientUpdate)
    (jso : v1.lightClientUpdateJSON) (ah : BeaconBlockHeader)
    (h1 : jso.attestedHeader = some ah) :
    ((v1.LightClientUpdate.unmarshalBody l0 jso).1).attestedHeader = some ah := by
  simp only [v1.LightClientUpdate.unmarshalBody, h1]
  repeat' split
  all_goals rfl

theorem upd_keep_committee (l0 : v1.LightClientUpdate)
    (jso : v1.lightClientUpdateJSON) (ah : BeaconBlockHeader) (sc : SyncCommittee)
    (h1 : jso.attestedHeader = some ah) (h2 : jso.nextSyncCommittee = some sc) :
    ((v1.LightClientUpdate.unmarshalBody l0 jso).1).nextSyncCommittee = some sc := by
  simp only [v1.LightClientUpdate.unmarshalBody, h1, h2]
  repeat' split
  all_goals rfl

theorem upd_keep_nsc_branch (l0 : v1.LightClientUpdate)
    (jso : v1.lightClientUpdateJSON) (ah : BeaconBlockHeader) (sc : SyncCommittee)
    (nb : List String)
    (h1 : jso.attestedHeader = some ah) (h2 : jso.nextSyncCommittee = some sc)
    (h3 : jso.nextSyncCommitteeBranch = some nb) (hne : ¬ nb.length = 0) :
    ((v1.LightClientUpdate.unmarshalBody l0 jso).1).nextSyncCommitteeBranch =
      (branchLoopGuard "next_sync_committee_branch" nb 0
        (List.replicate nb.length [])).1 := by
  rcases hr : branchLoopGuard "next_sync_committee_branch" nb 0
    (List.replicate nb.length []) with ⟨out, e⟩
  simp only [v1.LightClientUpdate.unmarshalBody, h1, h2, h3]
  rw [if_neg hne, hr]
  cases e
  · repeat' split
    all_goals rfl
  · rfl

theorem upd_keep_finalized (l0 : v1.LightClientUpdate)
    (jso : v1.lightClientUpdateJSON) (ah : BeaconBlockHeader) (sc : SyncCommittee)
    (nb : List String) (fh : BeaconBlockHeader)
    (h1 : jso.attestedHeader = some ah) (h2 : jso.nextSyncCommittee = some sc)
    (h3 : jso.nextSyncCommitteeBranch = some nb) (hne : ¬ nb.length = 0)
    (hloop : (branchLoopGuard "next_sync_committee_branch" nb 0
      (List.replicate nb.length [])).2 = none)
    (h4 : jso.finalizedHeader = some fh) :
    ((v1.LightClientUpdate.unmarshalBody l0 jso).1).finalizedHeader = some fh := by
  rcases hr : branchLoopGuard "next_sync_committee_branch" nb 0
    (List.replicate nb.length []) with ⟨out, e⟩
  rw [hr] at hloop
  simp only at hloop
  subst hloop
  simp only [v1.LightClientUpdate.unmarshalBody, h1, h2, h3]
  rw [if_neg hne, hr]
  simp only [h4]
  repeat' split
  all_goals rfl

theorem upd_keep_fin_branch (l0 : v1.LightClientUpdate)
    (jso : v1.lightClientUpdateJSON) (ah : BeaconBlockHeader) (sc : SyncCommittee)
    (nb fb : List String) (fh : BeaconBlockHeader)
    (h1 : jso.attestedHeader = some ah) (h2 : jso.nextSyncCommittee = some sc)
    (h3 : jso.nextSyncCommitteeBranch = some nb) (hne : ¬ nb.length = 0)
    (hloop : (branchLoopGuard "next_sync_committee_branch" nb 0
      (List.replicate nb.length [])).2 = none)
    (h4 : jso.finalizedHeader = some fh) (h5 : jso.finalityBranch = some fb)
    (hne2 : ¬ fb.length = 0) :
    ((v1.LightClientUpdate.unmarshalBody l0 jso).1).finalityBranch =
      (branchLoopGuard "finality_branch" fb 0 (List.replicate fb.length [])).1 := by
  rcases hr : branchLoopGuard "next_sync_committee_branch" nb 0
    (List.replicate nb.length []) with ⟨out, e⟩
  rw [hr] at hloop
  simp only at hloop
  subst hloop
  rcases hr2 : branchLoopGuard "finality_branch" fb 0
    (List.replicate fb.length []) with ⟨out2, e2⟩
  simp only [v1.LightClientUpdate.unmarshalBody, h1, h2, h3]
  rw [if_neg hne, hr]
  simp only [h4, h5]
  rw [if_neg hne2, hr2]
  cases e2
  · repeat' split
    all_goals rfl
  · rfl

theorem upd_keep_aggregate (l0 : v1.LightClientUpdate)
    (jso : v1.lightClientUpdateJSON) (ah : BeaconBlockHeader) (sc : SyncCommittee)
    (nb fb : List String) (fh : BeaconBlockHeader) (sa : SyncAggregate)
    (h1 : jso.attestedHeader = some ah) (h2 : jso.nextSyncCommittee = some sc)
    (h3 : jso.nextSyncCommitteeBranch = some nb) (hne : ¬ nb.length = 0)
    (hloop : (branchLoopGuard "next_sync_committee_branch" nb 0
      (List.replicate nb.length [])).2 = none)
    (h4 : jso.finalizedHeader = some fh) (h5 : jso.finalityBranch = some fb)
    (hne2 : ¬ fb.length = 0)
    (hloop2 : (branchLoopGuard "finality_branch" fb 0
      (List.replicate fb.length [])).2 = none)
    (h6 : jso.syncAggregate = some sa) :
    ((v1.LightClientUpdate.unmarshalBody l0 jso).1).syncAggregate = some sa := by
  rcases hr : branchLoopGuard "next_sync_committee_branch" nb 0
    (List.replicate nb.length []) with ⟨out, e⟩
  rw [hr] at hloop
  simp only at hloop
  subst hloop
  rcases hr2 : branchLoopGuard "finality_branch" fb 0
    (List.replicate fb.length []) with ⟨out2, e2⟩
  rw [hr2] at hloop2
  simp only at hloop2
  subst hloop2
  simp only [v1.LightClientUpdate.unmarshalBody, h1, h2, h3]
  rw [if_neg hne, hr]
  simp only [h4, h5]
  rw [if_neg hne2, hr2]
  simp only [h6]
  repeat' split
  all_goals rfl

theorem upd_assign_slot (l0 : v1.LightClientUpdate)
    (jso : v1.lightClientUpdateJSON) (ah : BeaconBlockHeader) (sc : SyncCommittee)
    (nb fb : List String) (fh : BeaconBlockHeader) (sa : SyncAggregate) (n : Nat)
    (h1 : jso.attestedHeader = some ah) (h2 : jso.nextSyncCommittee = some sc)
    (h3 : jso.nextSyncCommitteeBranch = some nb) (hne : ¬ nb.length = 0)
    (hloop : (branchLoopGuard "next_sync_committee_branch" nb 0
      (List.replicate nb.length [])).2 = none)
    (h4 : jso.finalizedHeader = some fh) (h5 : jso.finalityBranch = some fb)
    (hne2 : ¬ fb.length = 0)
    (hloop2 : (branchLoopGuard "finality_branch" fb 0
      (List.replicate fb.length [])).2 = none)
    (h6 : jso.syncAggregate = some sa) (hs : ¬ jso.signatureSlot = "")
    (hp : goParseUint jso.signatureSlot = .ok n) :
    ((v1.LightClientUpdate.unmarshalBody l0 jso).1).signatureSlot = n ∧
      (v1.LightClientUpdate.unmarshalBody l0 jso).2 = none := by
  rcases hr : branchLoopGuard "next_sync_committee_branch" nb 0
    (List.replicate nb.length []) with ⟨out, e⟩
  rw [hr] at hloop
  simp only at hloop
  subst hloop
  rcases hr2 : branchLoopGuard "finality_branch" fb 0
    (List.replicate fb.length []) with ⟨out2, e2⟩
  rw [hr2] at hloop2
  simp only at hloop2
  subst hloop2
  simp only [v1.LightClientUpdate.unmarshalBody, h1, h2, h3]
  rw [if_neg hne, hr]
  simp only [h4, h5]
  rw [if_neg hne2, hr2]
  simp only [h6]
  rw [if_neg hs, hp]
  exact ⟨rfl, rfl⟩

theorem boot_keep_header (l0 : v1.LightClientBootstrap)
    (jso : v1.lightClientBootstrapJSON) (hh : BeaconBlockHeader)
    (h1 : jso.header = some hh) :
    ((v1.LightClientBootstrap.unmarshalBody l0 jso).1).header = some hh := by
  simp only [v1.LightClientBootstrap.unmarshalBody, h1]
  repeat' split
  all_goals rfl

theorem boot_keep_committee (l0 : v1.LightClientBootstrap)
    (jso : v1.lightClientBootstrapJSON) (hh : BeaconBlockHeader) (cc : SyncCommittee)
    (h1 : jso.header = some hh) (h2 : jso.currentSyncCommittee = some cc) :
    ((v1.LightClientBootstrap.unmarshalBody l0 jso).1).currentSyncCommittee =
      some cc := by
  simp only [v1.LightClientBootstrap.unmarshalBody, h1, h2]
  repeat' split
  all_goals rfl

theorem boot_assign_branch (l0 : v1.LightClientBootstrap)
    (jso : v1.lightClientBootstrapJSON) (hh : BeaconBlockHeader) (cc : SyncCommittee)
    (cb : List String)
    (h1 : jso.header = some hh) (h2 : jso.currentSyncCommittee = some cc)
    (h3 : jso.currentSyncCommitteeBranch = some cb) (hne : ¬ cb.length = 0) :
    ((v1.LightClientBootstrap.unmarshalBody l0 jso).1).currentSyncCommitteeBranch =
      (branchLoop32 "current_sync_committee_branch" cb 0
        (List.replicate cb.length (List.replicate 32 0))).1 := by
  simp only [v1.LightClientBootstrap.unmarshalBody, h1, h2, h3]
  rw [if_neg hne]

/-- C10: textual decoding is not atomic — fields of the receiver are
assigned in declaration order as they validate, with no rollback when a
later check fails.  Each conjunct fixes one field of
`v1.LightClientUpdate.unmarshalBody` or `v1.LightClientBootstrap.unmarshalBody`:
once its own validation has passed, the decoded value (including the
branch loop's partial output, errors or not) sits in the result record
whatever the remaining fields hold. -/
theorem c10_partial_assignment :
    (∀ l0 jso ah, jso.attestedHeader = some ah →
      ((v1.LightClientUpdate.unmarshalBody l0 jso).1).attestedHeader = some ah) ∧
    (∀ l0 jso ah sc, jso.attestedHeader = some ah →
      jso.nextSyncCommittee = some sc →
      ((v1.LightClientUpdate.unmarshalBody l0 jso).1).nextSyncCommittee = some sc) ∧
    (∀ l0 jso ah sc nb, jso.attestedHeader = some ah →
      jso.nextSyncCommittee = some sc → jso.nextSyncCommitteeBranch = some nb →
      ¬ nb.length = 0 →
      ((v1.LightClientUpdate.unmarshalBody l0 jso).1).nextSyncCommitteeBranch =
        (branchLoopGuard "next_sync_committee_branch" nb 0
          (List.replicate nb.length [])).1) ∧
    (∀ l0 jso ah sc nb fh, jso.attestedHeader = some ah →
      jso.nextSyncCommittee = some sc → jso.nextSyncCommitteeBranch = some nb →
      ¬ nb.length = 0 →
      (branchLoopGuard "next_sync_committee_branch" nb 0
        (List.replicate nb.length [])).2 = none →
      jso.finalizedHeader = some fh →
      ((v1.LightClientUpdate.unmarshalBody l0 jso).1).finalizedHeader = some fh) ∧
    (∀ l0 jso ah sc nb fb fh, jso.attestedHeader = some ah →
      jso.nextSyncCommittee = some sc → jso.nextSyncCommitteeBranch = some nb →
      ¬ nb.length = 0 →
      (branchLoopGuard "next_sync_committee_branch" nb 0
        (List.replicate nb.length [])).2 = none →
      jso.finalizedHeader = some fh → jso.finalityBranch = some fb →
      ¬ fb.length = 0 →
      ((v1.LightClientUpdate.unmarshalBody l0 jso).1).finalityBranch =
        (branchLoopGuard "finality_branch" fb 0
          (List.replicate fb.length [])).1) ∧
    (∀ l0 jso ah sc nb fb fh sa, jso.attestedHeader = some ah →
      jso.nextSyncCommittee = some sc → jso.nextSyncCommitteeBranch = some nb →
      ¬ nb.length = 0 →
      (branchLoopGuard "next_sync_committee_branch" nb 0
        (List.replicate nb.length [])).2 = none →
      jso.finalizedHeader = some fh → jso.finalityBranch = some fb →
      ¬ fb.length = 0 →
      (branchLoopGuard "finality_branch" fb 0
        (List.replicate fb.length [])).2 = none →
      jso.syncAggregate = some sa →
      ((v1.LightClientUpdate.unmarshalBody l0 jso).1).syncAggregate = some sa) ∧
    (∀ l0 jso ah sc nb fb fh sa n, jso.attestedHeader = some ah →
      jso.nextSyncCommittee = some sc → jso.nextSyncCommitteeBranch = some nb →
      ¬ nb.length = 0 →
      (branchLoopGuard "next_sync_committee_branch" nb 0
        (List.replicate nb.length [])).2 = none →
      jso.finalizedHeader = some fh → jso.finalityBranch = some fb →
      ¬ fb.length = 0 →
      (branchLoopGuard "finality_branch" fb 0
        (List.replicate fb.length [])).2 = none →
      jso.syncAggregate = some sa → ¬ jso.signatureSlot = "" →
      goParseUint jso.signatureSlot = .ok n →
      ((v1.LightClientUpdate.unmarshalBody l0 jso).1).signatureSlot = n ∧
        (v1.LightClientUpdate.unmarshalBody l0 jso).2 = none) ∧
    (∀ l0 jso hh, jso.header = some hh →
      ((v1.LightClientBootstrap.unmarshalBody l0 jso).1).header = some hh) ∧
    (∀ l0 jso hh cc, jso.header = some hh → jso.currentSyncCommittee = some cc →
      ((v1.LightClientBootstrap.unmarshalBody l0 jso).1).currentSyncCommittee =
        some cc) ∧
    (∀ l0 jso hh cc cb, jso.header = some hh → jso.currentSyncCommittee = some cc →
      jso.currentSyncCommitteeBranch = some cb → ¬ cb.length = 0 →
      ((v1.LightClientBootstrap.unmarshalBody l0 jso).1).currentSyncCommitteeBranch =
        (branchLoop32 "current_sync_committee_branch" cb 0
          (List.replicate cb.length (List.replicate 32 0))).1) :=
  ⟨upd_keep_attested, upd_keep_committee, upd_keep_nsc_branch,
    fun l0 jso ah sc nb fh h1 h2 h3 hne hl h4 =>
      upd_keep_finalized l0 jso ah sc nb fh h1 h2 h3 hne hl h4,
    fun l0 jso ah sc nb fb fh h1 h2 h3 hne hl h4 h5 hne2 =>
      upd_keep_fin_branch l0 jso ah sc nb fb fh h1 h2 h3 hne hl h4 h5 hne2,
    fun l0 jso ah sc nb fb fh sa h1 h2 h3 hne hl h4 h5 hne2 hl2 h6 =>
      upd_keep_aggregate l0 jso ah sc nb fb fh sa h1 h2 h3 hne hl h4 h5 hne2 hl2 h6,
    fun l0 jso ah sc nb fb fh sa n h1 h2 h3 hne hl h4 h5 hne2 hl2 h6 hs hp =>
      upd_assign_slot l0 jso ah sc nb fb fh sa n h1 h2 h3 hne hl h4 h5 hne2 hl2 h6 hs hp,
    boot_keep_header, boot_keep_committee, boot_assign_branch⟩

/-- C10 witness: a decode failing at `signature_slot` has already assigned
every earlier field of the receiver. -/
theorem c10_partial_assignment_witness :
    ((v1.LightClientUpdate.unmarshalBody v1.LightClientUpdate.zero
      ⟨some ⟨hObj⟩, some ⟨hObj⟩, some [b32s], some ⟨hObj⟩, some [b32s],
        some ⟨hObj⟩, "-1"⟩).1).finalizedHeader = some ⟨hObj⟩ ∧
    (v1.LightClientUpdate.unmarshalBody v1.LightClientUpdate.zero
      ⟨some ⟨hObj⟩, some ⟨hObj⟩, some [b32s], some ⟨hObj⟩, some [b32s],
        some ⟨hObj⟩, "-1"⟩).2 = some slotErrNeg1 :=
  ⟨c10_partial_assignment.2.2.2.1 v1.LightClientUpdate.zero _ ⟨hObj⟩ ⟨hObj⟩
      [b32s] ⟨hObj⟩ rfl rfl rfl (by decide) rfl rfl,
    rfl⟩

/-- C4 witness: the field-presence checks at concrete inputs. -/
theorem c4_field_presence_witness :
    (v1.LightClientUpdate.unmarshalBody v1.LightClientUpdate.zero
      ⟨some ⟨hObj⟩, none, some [b32s], some ⟨hObj⟩, some [b32s], some ⟨hObj⟩, "1"⟩).2 =
      some "next_sync_committee missing" ∧
    (v1.LightClientBootstrap.unmarshalBody v1.LightClientBootstrap.zero
      ⟨some ⟨hObj⟩, some ⟨hObj⟩, some []⟩).2 =
      some "current_sync_committee_branch length cannot be 0" :=
  ⟨c4_field_presence.2.1 v1.LightClientUpdate.zero _ ⟨hObj⟩ rfl rfl,
    c4_field_presence.2.2.2.2.2.2.2.2.2.2.2.2.1 v1.LightClientBootstrap.zero _
      ⟨hObj⟩ ⟨hObj⟩ rfl rfl rfl⟩

end GoEth2
